import Mathlib

/-!
# Shallow embedding of the AI-authorship detection pipeline

This file embeds the scoring and classification pipeline of
`backend/aware_analyzer.py` and `backend/advanced_features.py` and proves
or refutes the frozen claims about it.

Modelling conventions (each is noted again at the definition it concerns):

* Python floats are modelled exactly: rational arithmetic (`ℚ`) wherever the
  source computes field operations, and real numbers (`ℝ`) where the source
  calls `math.sqrt` (`statistics.pstdev`) or `math.log2` (Shannon entropy).
  Python `round(x, d)` is banker's rounding, modelled by `bround`/`pyRound`.
* Sentence tokenisation: the analyzer prefers NLTK's `sent_tokenize` and
  falls back to `re.split(r'[.!?]+\s+', text)` when NLTK is unavailable
  (spec §1/§6 treat the NLP toolkit as an external collaborator).  We embed
  the in-source regex fallback; the concrete documents used below are
  tokenised identically by both.
* Part-of-speech tagging (markers B5, G1, human indicator DOMAIN_EXPERTISE)
  is likewise an optional external dependency; we embed the deterministic
  in-source fallback path (`POS_AVAILABLE = False`): B5 scores 0 and
  G1/DOMAIN_EXPERTISE use the documented regex heuristics.
* Evidence snippet lists (±40-char windows, 5-item truncation) are
  presentation details (spec §9) and are not carried in the model.
* The regular expressions of the source are compiled to direct character
  scans.  Python's `re` scans left to right and returns non-overlapping
  matches; greedy `+`/`*` over a character class followed by a character
  outside that class needs no backtracking, which makes every pattern used
  by the source a deterministic scan.
-/

namespace Aware

/- Batteries marks the rational field operations `@[irreducible]`; proofs
below evaluate concrete rational pipeline values by kernel reduction, so
they are made semireducible for this file. -/
attribute [local semireducible] Rat.add Rat.mul Rat.inv Rat.sub Rat.ofScientific

/-! ## Banker's rounding (Python `round`) -/

/-- Round a rational to the nearest integer, ties to even (Python `round`). -/
def bround (q : ℚ) : ℤ :=
  if q - ⌊q⌋ < 1/2 then ⌊q⌋
  else if 1/2 < q - ⌊q⌋ then ⌊q⌋ + 1
  else if ⌊q⌋ % 2 = 0 then ⌊q⌋ else ⌊q⌋ + 1

/-- Python `round(q, d)` for rationals. -/
def pyRound (q : ℚ) (d : ℕ) : ℚ := (bround (q * 10 ^ d) : ℚ) / 10 ^ d

/-- Round a real to the nearest integer, ties to even (Python `round`). -/
noncomputable def broundR (x : ℝ) : ℤ :=
  if x - ⌊x⌋ < 1/2 then ⌊x⌋
  else if 1/2 < x - ⌊x⌋ then ⌊x⌋ + 1
  else if ⌊x⌋ % 2 = 0 then ⌊x⌋ else ⌊x⌋ + 1

/-- Python `round(x, d)` for reals. -/
noncomputable def pyRoundR (x : ℝ) (d : ℕ) : ℝ := (broundR (x * 10 ^ d) : ℝ) / 10 ^ d

theorem broundR_ratCast (q : ℚ) : broundR (q : ℝ) = bround q := by
  unfold broundR bround
  rw [Rat.floor_cast]
  have e1 : (q : ℝ) - ((⌊q⌋ : ℤ) : ℝ) = (((q - ⌊q⌋ : ℚ)) : ℝ) := by push_cast; ring
  have e2 : (1:ℝ)/2 = (((1/2 : ℚ)) : ℝ) := by norm_num
  have c1 : ((q : ℝ) - ((⌊q⌋ : ℤ) : ℝ) < 1/2) ↔ ((q : ℚ) - ((⌊q⌋ : ℤ) : ℚ) < 1/2) := by
    rw [e1, e2]; exact Rat.cast_lt
  have c2 : ((1:ℝ)/2 < (q : ℝ) - ((⌊q⌋ : ℤ) : ℝ)) ↔ ((1:ℚ)/2 < (q : ℚ) - ((⌊q⌋ : ℤ) : ℚ)) := by
    rw [e1, e2]; exact Rat.cast_lt
  simp only [c1, c2]

theorem pyRoundR_ratCast (q : ℚ) (d : ℕ) : pyRoundR (q : ℝ) d = (pyRound q d : ℝ) := by
  unfold pyRoundR pyRound
  have h : ((q : ℝ) * 10 ^ d) = ((q * 10 ^ d : ℚ) : ℝ) := by push_cast; ring
  rw [h, broundR_ratCast]
  push_cast
  ring

/-! ## Population statistics (`statistics.mean` / `statistics.pstdev`) -/

/-- `statistics.mean` (used only on nonempty lists by the source). -/
def qMean (xs : List ℚ) : ℚ := xs.sum / xs.length

/-- Population variance, `statistics.pvariance`. -/
def pvarQ (xs : List ℚ) : ℚ :=
  (xs.map (fun x => (x - qMean xs) ^ 2)).sum / xs.length

/-- `statistics.pstdev`, the square root of the population variance. -/
noncomputable def pstdevR (xs : List ℚ) : ℝ := Real.sqrt (pvarQ xs)

theorem pvarQ_nonneg (xs : List ℚ) : 0 ≤ pvarQ xs := by
  unfold pvarQ
  apply div_nonneg
  · apply List.sum_nonneg
    intro x hx
    obtain ⟨y, _, rfl⟩ := List.mem_map.mp hx
    positivity
  · positivity

theorem pstdevR_lt_iff (xs : List ℚ) (c : ℚ) (hc : 0 < c) :
    pstdevR xs < (c : ℝ) ↔ pvarQ xs < c ^ 2 := by
  unfold pstdevR
  rw [show ((c : ℝ)) = Real.sqrt ((c : ℝ) ^ 2) by
        rw [Real.sqrt_sq (by positivity)]]
  rw [Real.sqrt_lt_sqrt_iff (by exact_mod_cast pvarQ_nonneg xs)]
  constructor
  · intro h; exact_mod_cast h
  · intro h; exact_mod_cast h

theorem pstdevR_gt_iff (xs : List ℚ) (c : ℚ) (hc : 0 ≤ c) :
    (c : ℝ) < pstdevR xs ↔ (c : ℚ) ^ 2 < pvarQ xs := by
  unfold pstdevR
  rw [show ((c : ℝ)) = Real.sqrt ((c : ℝ) ^ 2) by
        rw [Real.sqrt_sq (by positivity)]]
  rw [Real.sqrt_lt_sqrt_iff (by positivity)]
  constructor
  · intro h; exact_mod_cast h
  · intro h; exact_mod_cast h

/-! ## Characters and tokens

Python's `re` module with `str` input matches Unicode, but every character
class the source uses (`\w`, `\s`, `\d`, `[a-z]`, `[A-Z]`) is exercised by
the analysed documents only on ASCII text plus the specific non-ASCII
characters the detectors look for (em/en dashes, smart quotes, sub- and
superscripts, invisible clipboard characters), none of which belong to
`\w`; NBSP (U+00A0) is the one non-ASCII `\s` character that can occur. -/

/-- Python `\w` on the character repertoire of the modelled documents. -/
def isWordChar (c : Char) : Bool := c.isAlphanum || c = '_'

/-- Python `\s` on the character repertoire of the modelled documents. -/
def isWsChar (c : Char) : Bool :=
  c = ' ' || c = '\t' || c = '\n' || c = '\r' ||
  c = Char.ofNat 0x0B || c = Char.ofNat 0x0C || c = Char.ofNat 0xA0

/-- The sentence-terminating class `[.!?]` of the tokenizer fallback. -/
def isSentChar (c : Char) : Bool := c = '.' || c = '!' || c = '?'

def isLowerAZ (c : Char) : Bool := 'a' ≤ c && c ≤ 'z'

def isUpperAZ (c : Char) : Bool := 'A' ≤ c && c ≤ 'Z'

def isDigit09 (c : Char) : Bool := c.isDigit

/-- `str.lower()` (ASCII case mapping; see the character note above). -/
def lowerS (s : String) : String := String.mk (s.data.map Char.toLower)

/-- `str.strip()`. -/
def pyStrip (s : String) : String :=
  String.mk (((s.data.dropWhile isWsChar).reverse.dropWhile isWsChar).reverse)

/-- Split a character list at every occurrence of `sep` (used for
Python `str.split`/`str.splitlines` on the separators the documents
use). -/
def splitOnCharGo (sep : Char) : List Char → List Char → List (List Char)
  | [], acc => [acc.reverse]
  | c :: cs, acc =>
    if c = sep then acc.reverse :: splitOnCharGo sep cs []
    else splitOnCharGo sep cs (c :: acc)

def splitOnChar (sep : Char) (s : String) : List String :=
  (splitOnCharGo sep s.data []).map String.mk

/-- `pre` is a prefix of `s` (Python `str.startswith`). -/
def strStarts (pre s : String) : Bool := pre.data.isPrefixOf s.data

theorem dwLen {α : Type} (p : α → Bool) (l : List α) :
    (l.dropWhile p).length ≤ l.length := by
  induction l with
  | nil => simp
  | cons c cs ih =>
    rw [List.dropWhile_cons]
    split
    · exact ih.trans (Nat.le_succ _)
    · simp

/-- Maximal runs of characters satisfying `p` (used for `\w+`, `\d+`).
The fuel argument only forces structural recursion; every step consumes
at least one character, so `cs.length` is always enough. -/
def runsByF (p : Char → Bool) : ℕ → List Char → List (List Char)
  | 0, _ => []
  | _ + 1, [] => []
  | fuel + 1, c :: cs =>
    if p c then (c :: cs.takeWhile p) :: runsByF p fuel (cs.dropWhile p)
    else runsByF p fuel cs

def runsBy (p : Char → Bool) (cs : List Char) : List (List Char) :=
  runsByF p cs.length cs

/-- `WORD_RE.findall(s)` where `WORD_RE = re.compile(r"\b\w+\b")`: the
maximal word-character runs (the boundaries around a maximal run always
hold). -/
def wordsOf (s : String) : List String := (runsBy isWordChar s.data).map String.mk

/-- `parsers.count_words`. -/
def count_words (s : String) : ℕ := (wordsOf s).length

/-- `re.findall(r"\d+", s)` match count: maximal digit runs. -/
def digitRunCount (s : String) : ℕ := (runsBy isDigit09 s.data).length

/-- Substring test, Python `needle in hay` (on char lists). -/
def containsSub (needle : List Char) : List Char → Bool
  | [] => needle.isEmpty
  | c :: cs => needle.isPrefixOf (c :: cs) || containsSub needle cs

/-- Substring test on strings, Python `needle in hay`. -/
def containsSubStr (needle hay : String) : Bool := containsSub needle.data hay.data

/-! ### The sentence tokenizer fallback

`re.split(r'[.!?]+\s+', text)`: the separator is a maximal run of
sentence punctuation followed by a maximal whitespace run (the classes are
disjoint, so the greedy quantifiers are deterministic); a punctuation run
not followed by whitespace stays inside the surrounding token. -/

def splitSentCoreF : ℕ → List Char → List Char → List (List Char)
  | _, [], acc => [acc.reverse]
  | 0, cs, acc => [acc.reverse ++ cs]
  | fuel + 1, c :: cs, acc =>
    if isSentChar c then
      let run := cs.takeWhile isSentChar
      let rest := cs.dropWhile isSentChar
      match rest with
      | [] => [acc.reverse ++ c :: run]
      | d :: _ =>
        if isWsChar d then
          acc.reverse :: splitSentCoreF fuel (rest.dropWhile isWsChar) []
        else
          splitSentCoreF fuel rest (run.reverse ++ c :: acc)
    else
      splitSentCoreF fuel cs (c :: acc)

def splitSentCore (cs acc : List Char) : List (List Char) :=
  splitSentCoreF cs.length cs acc

/-- `analyze_document` lines 113–114 (NLTK-unavailable fallback):
split, strip each piece, drop empties. -/
def sentencesOf (text : String) : List String :=
  ((splitSentCore text.data []).map (fun l => pyStrip (String.mk l))).filter (· ≠ "")

/-! ### Non-overlapping match counting

`countMatches m cs` counts non-overlapping, leftmost matches of the
matcher `m`, which reports the match length at the head of its argument;
after a match the scan resumes past it (Python `re.finditer` semantics).
`countMatchesPrev` additionally hands the matcher the character preceding
the current position, which is what `\b` look-behinds need. -/

def scanCount (m : List Char → Option ℕ) : ℕ → List Char → ℕ
  | 0, _ => 0
  | _ + 1, [] => 0
  | fuel + 1, c :: cs =>
    match m (c :: cs) with
    | some k => 1 + scanCount m fuel ((c :: cs).drop (max k 1))
    | none => scanCount m fuel cs

def countMatches (m : List Char → Option ℕ) (cs : List Char) : ℕ :=
  scanCount m cs.length cs

def scanCountPrev (m : Option Char → List Char → Option ℕ) :
    ℕ → Option Char → List Char → ℕ
  | 0, _, _ => 0
  | _ + 1, _, [] => 0
  | fuel + 1, prev, c :: cs =>
    match m prev (c :: cs) with
    | some k =>
        1 + scanCountPrev m fuel (((c :: cs).take (max k 1)).getLast?)
              ((c :: cs).drop (max k 1))
    | none => scanCountPrev m fuel (some c) cs

def countMatchesPrev (m : Option Char → List Char → Option ℕ) (cs : List Char) : ℕ :=
  scanCountPrev m cs.length none cs

/-- Does the previous character end a word (`\b` fails before a word char
when this is true)? -/
def prevIsWord : Option Char → Bool
  | some p => isWordChar p
  | none => false

/-- Matcher for an alternation of literals (already lower-cased when used
case-insensitively), in the source's alternation order. -/
def mAlts (alts : List (List Char)) (cs : List Char) : Option ℕ :=
  (alts.find? (fun a => a.isPrefixOf cs)).map List.length

/-- Count non-overlapping, case-insensitive matches of an alternation of
literal phrases. -/
def countAltsCI (alts : List String) (s : String) : ℕ :=
  countMatches (mAlts (alts.map (fun a => a.data))) (s.data.map Char.toLower)

/-- Count non-overlapping, case-insensitive occurrences of one literal. -/
def countLitCI (lit : String) (s : String) : ℕ := countAltsCI [lit] s

/-- Matcher for `\b<lit>\b` where `lit` starts and ends with word
characters (all the source's bounded literals do). -/
def mBoundedLit (lit : List Char) (prev : Option Char) (cs : List Char) : Option ℕ :=
  if prevIsWord prev then none
  else if lit.isPrefixOf cs then
    match cs.drop lit.length with
    | d :: _ => if isWordChar d then none else some lit.length
    | [] => some lit.length
  else none

/-- `len(re.findall(rf"\b{re.escape(term)}\b", lowered))`. -/
def countBoundedLit (term : String) (lowered : List Char) : ℕ :=
  countMatchesPrev (mBoundedLit term.data) lowered

/-! ## The concrete regular expressions of the detectors -/

def emDash : Char := Char.ofNat 0x2014

def enDash : Char := Char.ofNat 0x2013

def apoChar : Char := Char.ofNat 0x27

def quoteChar : Char := Char.ofNat 0x22

def apoS : String := String.mk [apoChar]

/-- A1: matcher for `—|--`. -/
def mEmDash : List Char → Option ℕ
  | [] => none
  | c :: cs =>
    if c = emDash then some 1
    else if c = '-' then
      match cs with
      | d :: _ => if d = '-' then some 2 else none
      | [] => none
    else none

/-- A1: `len(re.finditer(r"—|--", text))`. -/
def emDashCount (s : String) : ℕ := countMatches mEmDash s.data

/-- A2: `(?<![0-9])[:;](?![0-9/])` — zero-width look-arounds, so every
qualifying punctuation character is one match. -/
def colonSemiGo (prev : Option Char) : List Char → ℕ
  | [] => 0
  | c :: cs =>
    let hit :=
      (c = ':' || c = ';') &&
      (match prev with | some p => !p.isDigit | none => true) &&
      (match cs with | d :: _ => !(d.isDigit || d = '/') | [] => true)
    (if hit then 1 else 0) + colonSemiGo (some c) cs

def colonSemiCount (s : String) : ℕ := colonSemiGo none s.data

/-- A3: the Unicode sub/superscript class
`[₀₁₂₃₄₅₆₇₈₉⁰¹²³⁴⁵⁶⁷⁸⁹ⁿ⁺⁻⁼⁽⁾]` (code points U+2080–U+2089, U+2070,
U+00B9, U+00B2, U+00B3, U+2074–U+207F). -/
def isSubSuper (c : Char) : Bool :=
  (0x2080 ≤ c.toNat && c.toNat ≤ 0x2089) || c.toNat = 0x2070 ||
  c.toNat = 0xB9 || c.toNat = 0xB2 || c.toNat = 0xB3 ||
  (0x2074 ≤ c.toNat && c.toNat ≤ 0x207F)

def subSuperCount (s : String) : ℕ := (s.data.filter isSubSuper).length

/-- A4: `QUOTE_STRAIGHT_RE = re.compile(r"[\"']")`. -/
def isStraightQuote (c : Char) : Bool := c = quoteChar || c = apoChar

/-- A4: `QUOTE_SMART_RE = re.compile(r"[“”‘’]")` (U+201C, U+201D, U+2018,
U+2019). -/
def isSmartQuote (c : Char) : Bool :=
  c.toNat = 0x201C || c.toNat = 0x201D || c.toNat = 0x2018 || c.toNat = 0x2019

def straightQuoteCount (s : String) : ℕ := (s.data.filter isStraightQuote).length

def smartQuoteCount (s : String) : ℕ := (s.data.filter isSmartQuote).length

def hasStraightQuote (s : String) : Bool := s.data.any isStraightQuote

def hasSmartQuote (s : String) : Bool := s.data.any isSmartQuote

/-- B1/B2: does the stripped, lowered sentence start with `word + ","` for
one of the given words (`detect_category_b` lines 440–446, 480–488)? -/
def sentStartsWithAny (ws : List String) (sent : String) : Bool :=
  ws.any (fun w => strStarts (w ++ ",") (lowerS (pyStrip sent)))

/-- B3 pattern `\(\s+\S`: `(`, a maximal whitespace run (the classes `\s`
and `\S` are complementary, so greediness is deterministic), then one
non-whitespace character. -/
def mParenOpenSpace : List Char → Option ℕ
  | [] => none
  | c :: cs =>
    if c = '(' then
      let r := cs.takeWhile isWsChar
      if r.length = 0 then none
      else match cs.drop r.length with
        | d :: _ => if isWsChar d then none else some (2 + r.length)
        | [] => none
    else none

/-- B3 pattern `\S\s+\)`. -/
def mSpaceParenClose : List Char → Option ℕ
  | [] => none
  | c :: cs =>
    if isWsChar c then none
    else
      let r := cs.takeWhile isWsChar
      if r.length = 0 then none
      else match cs.drop r.length with
        | ')' :: _ => some (2 + r.length)
        | _ => none

/-- B3 pattern `\s—\s`. -/
def mSpacedEmDash : List Char → Option ℕ
  | a :: b :: c :: _ =>
    if isWsChar a && b = emDash && isWsChar c then some 3 else none
  | _ => none

/-- B3 pattern `\d\s+–\s+\d`. -/
def mSpacedEnDash : List Char → Option ℕ
  | [] => none
  | c :: cs =>
    if c.isDigit then
      let r1 := cs.takeWhile isWsChar
      if r1.length = 0 then none
      else match cs.drop r1.length with
        | d :: rest =>
          if d = enDash then
            let r2 := rest.takeWhile isWsChar
            if r2.length = 0 then none
            else match rest.drop r2.length with
              | e :: _ => if e.isDigit then some (3 + r1.length + r2.length) else none
              | [] => none
          else none
        | [] => none
    else none

/-- B3 pattern `\w\s+\/\s+\w`. -/
def mSpacedSlash : List Char → Option ℕ
  | [] => none
  | c :: cs =>
    if isWordChar c then
      let r1 := cs.takeWhile isWsChar
      if r1.length = 0 then none
      else match cs.drop r1.length with
        | d :: rest =>
          if d = '/' then
            let r2 := rest.takeWhile isWsChar
            if r2.length = 0 then none
            else match rest.drop r2.length with
              | e :: _ => if isWordChar e then some (3 + r1.length + r2.length) else none
              | [] => none
          else none
        | [] => none
    else none

/-- B3: the five spacing-anomaly patterns are counted separately and the
counts summed (`detect_category_b` lines 523–535). -/
def b3count (s : String) : ℕ :=
  countMatches mParenOpenSpace s.data + countMatches mSpaceParenClose s.data +
  countMatches mSpacedEmDash s.data + countMatches mSpacedEnDash s.data +
  countMatches mSpacedSlash s.data

/-- B4 pattern `[^\n]\n(?=[a-z])` (the look-ahead is not consumed). -/
def mLineBreakIrreg : List Char → Option ℕ
  | c :: d :: e :: _ =>
    if c ≠ '\n' && d = '\n' && isLowerAZ e then some 2 else none
  | _ => none

def b4count (s : String) : ℕ := countMatches mLineBreakIrreg s.data

/-- D1 pattern
`It (is|should be) (important|worth|interesting) to (note|mention|observe) that`
flattened to its 18 alternatives in alternation order (at any position at
most one alternative can match, so the order is immaterial). -/
def hedging1Alts : List String :=
  (["is", "should be"].map (fun v1 =>
    (["important", "worth", "interesting"].map (fun v2 =>
      (["note", "mention", "observe"].map (fun v3 =>
        "it " ++ v1 ++ " " ++ v2 ++ " to " ++ v3 ++ " that")))).flatten)).flatten

/-- D1 pattern `This (suggests|indicates|demonstrates) that`. -/
def hedging2Alts : List String :=
  ["this suggests that", "this indicates that", "this demonstrates that"]

/-- D1: both hedging patterns counted separately and summed
(`detect_category_d` lines 753–761). -/
def d1count (s : String) : ℕ := countAltsCI hedging1Alts s + countAltsCI hedging2Alts s

/-- D2: the formal transition phrases (`detect_category_d` lines 781–788). -/
def formalPhrases : List String :=
  ["in light of the above", "taking into consideration", "with regard to",
   "in terms of", "it is evident that", "it can be observed that"]

/-- D2: each phrase counted with its own case-insensitive scan, summed. -/
def d2count (s : String) : ℕ := (formalPhrases.map (fun p => countLitCI p s)).sum

/-- D3: the verbs of `\b(is|are|was|were|been|being)\s+\w+ed\b`. -/
def passiveVerbs : List String := ["is", "are", "was", "were", "been", "being"]

/-- D3 matcher: a verb at a word boundary, whitespace, then a maximal word
run of length ≥ 3 ending in `ed` (this is exactly where `\w+ed\b` can
match: inside the run no boundary exists). -/
def mPassive (prev : Option Char) (cs : List Char) : Option ℕ :=
  if prevIsWord prev then none
  else
    match passiveVerbs.find? (fun v => v.data.isPrefixOf cs) with
    | some v =>
      let rest := cs.drop v.length
      let r := rest.takeWhile isWsChar
      if r.length = 0 then none
      else
        let run := (rest.drop r.length).takeWhile isWordChar
        if run.length ≥ 3 && run.reverse.take 2 = ['d', 'e'] then
          some (v.length + r.length + run.length)
        else none
    | none => none

/-- D3: `len(re.finditer(r"\b(is|are|was|were|been|being)\s+\w+ed\b",
text, re.IGNORECASE))`. -/
def passiveCount (s : String) : ℕ :=
  countMatchesPrev mPassive (s.data.map Char.toLower)

/-! ### E1 — the AI-favourite-words alternation

The E1 regex is `\b(<alternatives>)\b` with `re.IGNORECASE`.  Each
alternative is a literal optionally followed by `[sd]?`, `s?`, `\w+` or
`\w*`; the trailing `\b` belongs to the whole group, so a failing
boundary falls through to the next alternative. -/

inductive WordPat where
  | lit (s : String)
  | optSD (s : String)
  | optS (s : String)
  | wplus (s : String)
  | wstar (s : String)

/-- Is there a word boundary after the first `k` characters of `cs`
(given that character `k - 1` is a word character)? -/
def boundaryAfter (cs : List Char) (k : ℕ) : Bool :=
  match cs.drop k with
  | d :: _ => !isWordChar d
  | [] => true

/-- Match one alternative (with its trailing `\b`) at the head of `cs`.
For `[sd]?`/`s?` the greedy optional consumes the suffix character when
present; if it is present but the boundary then fails, backtracking to
the empty option also fails (the suffix character itself is a word
character), so the alternative fails. -/
def matchWordPat (cs : List Char) : WordPat → Option ℕ
  | .lit s =>
    if s.data.isPrefixOf cs && boundaryAfter cs s.length then some s.length else none
  | .optSD s =>
    if s.data.isPrefixOf cs then
      match cs.drop s.length with
      | d :: _ =>
        if d = 's' || d = 'd' then
          if boundaryAfter cs (s.length + 1) then some (s.length + 1) else none
        else if isWordChar d then none else some s.length
      | [] => some s.length
    else none
  | .optS s =>
    if s.data.isPrefixOf cs then
      match cs.drop s.length with
      | d :: _ =>
        if d = 's' then
          if boundaryAfter cs (s.length + 1) then some (s.length + 1) else none
        else if isWordChar d then none else some s.length
      | [] => some s.length
    else none
  | .wplus s =>
    if s.data.isPrefixOf cs then
      match ((cs.drop s.length).takeWhile isWordChar).length with
      | 0 => none
      | n + 1 => some (s.length + n + 1)
    else none
  | .wstar s =>
    if s.data.isPrefixOf cs then
      some (s.length + ((cs.drop s.length).takeWhile isWordChar).length)
    else none

def firstPatMatch : List WordPat → List Char → Option ℕ
  | [], _ => none
  | p :: ps, cs =>
    match matchWordPat cs p with
    | some k => some k
    | none => firstPatMatch ps cs

/-- The E1 alternatives, in the source's alternation order
(`detect_category_e` line 870). -/
def e1pats : List WordPat :=
  [.lit "delve", .lit "delving", .lit "crucial", .lit "crucially",
   .lit "pivotal", .lit "multifaceted", .lit "nuanced", .lit "comprehensive",
   .lit "robust", .optSD "leverage", .optSD "facilitate", .optSD "utilize",
   .lit "landscape", .lit "paradigm", .lit "synergy", .lit "holistic",
   .optSD "streamline", .optSD "foster", .optS "underscore", .lit "realm",
   .optS "encompasse", .lit "intricate", .lit "notably", .lit "essentially",
   .lit "arguably", .lit "proliferation", .lit "unprecedented",
   .lit "simultaneously", .lit "inadvertently", .optSD "perpetuate",
   .wplus "necessitat", .lit "optimal", .wplus "optimiz", .lit "genuine",
   .lit "authentic", .wstar "fundamental", .lit "contemporary",
   .wplus "methodolog", .lit "empirical", .optSD "demonstrate",
   .lit "cohort", .wplus "disparit", .lit "discourse", .optSD "evolve",
   .optS "imperative", .lit "rigor"]

/-- Scan for E1 matches, returning the matched (lowered) words in order.
The whole group is preceded by `\b`, handled via the previous character. -/
def e1scan : ℕ → Option Char → List Char → List String
  | 0, _, _ => []
  | _ + 1, _, [] => []
  | fuel + 1, prev, c :: cs =>
    if prevIsWord prev then e1scan fuel (some c) cs
    else
      match firstPatMatch e1pats (c :: cs) with
      | some k =>
          String.mk ((c :: cs).take k) ::
            e1scan fuel (((c :: cs).take (max k 1)).getLast?) ((c :: cs).drop (max k 1))
      | none => e1scan fuel (some c) cs

/-- E1: the matched words, lowered (`[m.group(0).lower() for m in matches]`;
scanning the lowered text directly yields the lowered matches). -/
def e1words (s : String) : List String :=
  let l := s.data.map Char.toLower
  e1scan l.length none l

/-! ### E2 — contraction avoidance term lists -/

def expandedForms : List String :=
  ["do not", "does not", "did not", "cannot", "will not", "would not",
   "should not", "could not", "is not", "are not", "have not", "has not",
   "it is", "that is"]

def contractionForms : List String :=
  ["don" ++ apoS ++ "t", "doesn" ++ apoS ++ "t", "didn" ++ apoS ++ "t",
   "can" ++ apoS ++ "t", "won" ++ apoS ++ "t", "wouldn" ++ apoS ++ "t",
   "shouldn" ++ apoS ++ "t", "couldn" ++ apoS ++ "t", "isn" ++ apoS ++ "t",
   "aren" ++ apoS ++ "t", "haven" ++ apoS ++ "t", "hasn" ++ apoS ++ "t",
   "it" ++ apoS ++ "s", "that" ++ apoS ++ "s"]

/-- E2: `sum(len(re.findall(rf"\b{re.escape(term)}\b", lower)) for term in …)`. -/
def e2expandedCount (s : String) : ℕ :=
  (expandedForms.map (fun t => countBoundedLit t (lowerS s).data)).sum

def e2contractionCount (s : String) : ℕ :=
  (contractionForms.map (fun t => countBoundedLit t (lowerS s).data)).sum

/-! ### G / I category matchers -/

/-- G1 vague-quantifier phrases (`detect_category_g` lines 1116–1124). -/
def vagueTerms : List String :=
  ["many studies show", "research indicates", "experts agree",
   "some researchers", "various factors", "numerous examples",
   "several aspects"]

/-- G1: unbounded case-insensitive counts of each term, summed. -/
def vagueCount (s : String) : ℕ := (vagueTerms.map (fun t => countLitCI t s)).sum

/-- G1 / DOMAIN_EXPERTISE regex fallback `\b[A-Z][a-z]+\b`: a maximal word
run shaped capital-then-lowercase (matches can only start at a run start
because of the leading `\b`, and the trailing `\b` forces the match to
cover the whole run). -/
def propNounFallbackCount (s : String) : ℕ :=
  ((runsBy isWordChar s.data).filter (fun w =>
    match w with
    | c :: rest => isUpperAZ c && rest.length ≥ 1 && rest.all isLowerAZ
    | [] => false)).length

/-- G2: one sentence's `re.search(r"\b(\w+)\b\s+(is defined as|refers
to|means)\s+([^\.]+)", sent, re.IGNORECASE)`: the first match's subject
(group 1) and definition (group 3), scanned on the lowered sentence.
After the keyword, the greedy `\s+` takes the maximal whitespace run; if
the following character exists and is not a dot, group 3 is the maximal
dot-free run from there; otherwise backtracking hands the tail of the
whitespace run (if longer than one character) to `[^\.]+`. -/
def g2afterKeyword (rest : List Char) : Option (List Char) :=
  match (rest.takeWhile isWsChar).length with
  | 0 => none
  | n + 1 =>
    match rest.drop (n + 1) with
    | d :: ds => if d = '.' then (if n ≥ 1 then some (rest.drop 1 |>.take n) else none)
                 else some ((d :: ds).takeWhile (fun c => c ≠ '.'))
    | [] => if n ≥ 1 then some (rest.drop 1 |>.take n) else none

def g2keywords : List String := ["is defined as", "refers to", "means"]

def g2tryAt (cs : List Char) : Option (List Char × List Char) :=
  match (cs.takeWhile isWordChar).length with
  | 0 => none
  | n + 1 =>
    let subject := cs.take (n + 1)
    let rest := cs.drop (n + 1)
    match (rest.takeWhile isWsChar).length with
    | 0 => none
    | m + 1 =>
      let rest2 := rest.drop (m + 1)
      match g2keywords.find? (fun k => k.data.isPrefixOf rest2) with
      | some kw =>
        match g2afterKeyword (rest2.drop kw.length) with
        | some defn => some (subject, defn)
        | none => none
      | none => none

def g2search : ℕ → Option Char → List Char → Option (List Char × List Char)
  | 0, _, _ => none
  | _ + 1, _, [] => none
  | fuel + 1, prev, c :: cs =>
    if prevIsWord prev then g2search fuel (some c) cs
    else
      match g2tryAt (c :: cs) with
      | some r => some r
      | none => g2search fuel (some c) cs

/-- G2: does this sentence contain a circular definition
(`detect_category_g` lines 1167–1177)?  Subject and definition are
compared lower-cased with Python substring `in`. -/
def isCircularSentence (sent : String) : Bool :=
  let l := sent.data.map Char.toLower
  match g2search l.length none l with
  | some (subject, defn) => containsSub subject defn
  | none => false

def circularCount (sentences : List String) : ℕ :=
  (sentences.filter isCircularSentence).length

/-- G3 generic-statement patterns `\b\w+ <suffix>\b`: a maximal word run
followed by the literal suffix, ending at a word boundary. -/
def mWordThen (suffix : List Char) (prev : Option Char) (cs : List Char) : Option ℕ :=
  if prevIsWord prev then none
  else
    match (cs.takeWhile isWordChar).length with
    | 0 => none
    | n + 1 =>
      if suffix.isPrefixOf (cs.drop (n + 1)) then
        match cs.drop (n + 1 + suffix.length) with
        | d :: _ => if isWordChar d then none else some (n + 1 + suffix.length)
        | [] => some (n + 1 + suffix.length)
      else none

def g3suffixes : List String :=
  [" is important", " plays a crucial role", " has both advantages and disadvantages",
   " is a complex topic", " requires careful consideration",
   " is essential for success", " has become increasingly important"]

/-- G3: each pattern counted case-insensitively on its own scan, summed. -/
def g3count (s : String) : ℕ :=
  (g3suffixes.map (fun suf =>
    countMatchesPrev (mWordThen suf.data) (s.data.map Char.toLower))).sum

/-- I1 pattern `\([A-Z][A-Za-z]+,?\s+\d{4}\)` (`detect_category_i` line
1346).  The greedy `,?` is deterministic because a comma can never start
the following `\s+`. -/
def mAuthorYear : List Char → Option ℕ
  | '(' :: c :: cs =>
    if isUpperAZ c then
      match (cs.takeWhile Char.isAlpha).length with
      | 0 => none
      | n + 1 =>
        let rest := cs.drop (n + 1)
        let commaLen : ℕ := match rest with | ',' :: _ => 1 | _ => 0
        let rest2 := rest.drop commaLen
        match (rest2.takeWhile isWsChar).length with
        | 0 => none
        | m + 1 =>
          let ds := rest2.drop (m + 1)
          if (ds.take 4).length = 4 && (ds.take 4).all isDigit09 then
            match ds.drop 4 with
            | ')' :: _ => some (2 + (n + 1) + commaLen + (m + 1) + 4 + 1)
            | _ => none
          else none
    else none
  | _ => none

def authorYearCount (s : String) : ℕ := countMatches mAuthorYear s.data

/-- I1 pattern `\[\d+\]`. -/
def mNumericCite : List Char → Option ℕ
  | '[' :: cs =>
    match (cs.takeWhile isDigit09).length with
    | 0 => none
    | n + 1 =>
      match cs.drop (n + 1) with
      | ']' :: _ => some (1 + (n + 1) + 1)
      | _ => none
  | _ => none

def numericCiteCount (s : String) : ℕ := countMatches mNumericCite s.data

/-- I1 pattern `\bet al\.\b` (case-insensitive).  The final `\b` sits
after the dot, so it only holds when a word character follows directly. -/
def mEtAl (prev : Option Char) (cs : List Char) : Option ℕ :=
  if prevIsWord prev then none
  else if ("et al.".data).isPrefixOf cs then
    match cs.drop 6 with
    | d :: _ => if isWordChar d then some 6 else none
    | [] => none
  else none

def etAlCount (s : String) : ℕ := countMatchesPrev mEtAl (s.data.map Char.toLower)

/-- I1 pattern `\b(2020|2021|2022)\b`. -/
def mRoundYear (prev : Option Char) (cs : List Char) : Option ℕ :=
  if prevIsWord prev then none
  else
    match (["2020", "2021", "2022"].find? (fun y => y.data.isPrefixOf cs)) with
    | some _ =>
      match cs.drop 4 with
      | d :: _ => if isWordChar d then none else some 4
      | [] => some 4
    | none => none

def roundYearCount (s : String) : ℕ := countMatchesPrev mRoundYear s.data

/-- I3: `re.match(r"^\s*(results|findings)\b", para, re.IGNORECASE)`. -/
def isResultsPara (p : String) : Bool :=
  let l := (p.data.map Char.toLower).dropWhile isWsChar
  (["results", "findings"].any (fun w =>
    w.data.isPrefixOf l &&
    (match l.drop w.length with
     | d :: _ => !isWordChar d
     | [] => true)))

def i3qualMarkers : List String :=
  ["showed significant improvement", "demonstrated positive results",
   "indicated a trend"]

/-- H5 clipboard-artifact class `[​‌‍﻿ ￼]`. -/
def isHiddenChar (c : Char) : Bool :=
  c.toNat = 0x200B || c.toNat = 0x200C || c.toNat = 0x200D ||
  c.toNat = 0xFEFF || c.toNat = 0xA0 || c.toNat = 0xFFFC

/-- Positions (character offsets) of the hidden characters, in order. -/
def hiddenPositions (s : String) : List ℕ :=
  (s.data.enum.filter (fun x => isHiddenChar x.2)).map (fun x => x.1)

/-- H5 clustering (`detect_category_h` lines 1315–1320): a new cluster
starts at the first match and whenever the gap to the previous match
exceeds 5. -/
def clustersFrom (last : ℕ) : List ℕ → ℕ
  | [] => 0
  | p :: ps => (if p - last > 5 then 1 else 0) + clustersFrom p ps

def h5clusters (s : String) : ℕ :=
  match hiddenPositions s with
  | [] => 0
  | p :: ps => 1 + clustersFrom p ps

/-! ## Statistical feature engine (`advanced_features.py`) -/

/-- Occurrences of `w` in `ws` (`collections.Counter` lookup). -/
def freqOf (ws : List String) (w : String) : ℕ := (ws.filter (· = w)).length

/-- `calculate_mtld`'s forward pass state machine
(`advanced_features.py` lines 76–99).  Returns the factor count, the
token count of the unfinished factor and the last computed TTR. -/
def mtldGo (threshold : ℚ) : List String → ℕ → ℕ → List String → ℚ → ℚ → ℚ × ℕ × ℚ
  | [], tc, _, _, fc, ttr => (fc, tc, ttr)
  | w :: ws, tc, tyc, types, fc, _ =>
    let tc' := tc + 1
    let tyc' := if types.contains w then tyc else tyc + 1
    let types' := if types.contains w then types else w :: types
    let ttr' : ℚ := tyc' / tc'
    if ttr' ≤ threshold then mtldGo threshold ws 0 0 [] (fc + 1) ttr'
    else mtldGo threshold ws tc' tyc' types' fc ttr'

def mtldForward (ws : List String) (threshold : ℚ) : ℚ :=
  match mtldGo threshold ws 0 0 [] 0 1 with
  | (fc, tc, ttr) =>
    let fc' := if tc > 0 then fc + (1 - ttr) / (1 - threshold) else fc
    if fc' > 0 then (ws.length : ℚ) / fc' else (ws.length : ℚ)

/-- `calculate_mtld` (0 below 50 words; mean of forward and backward). -/
def calculate_mtld (ws : List String) : ℚ :=
  if ws.length < 50 then 0
  else (mtldForward ws (72/100) + mtldForward ws.reverse (72/100)) / 2

structure LexDiv where
  typeToken : ℚ
  yuleK : ℚ
  simpsonIndex : ℚ
  hapaxLegomena : ℚ
  mtld : ℚ
  deriving DecidableEq

/-- `calculate_lexical_diversity` (values rounded as in the source: TTR,
Simpson and hapax to 4 places, Yule's K and MTLD to 2). -/
def calculate_lexical_diversity (text : String) : LexDiv :=
  let ws := wordsOf (lowerS text)
  if ws.isEmpty then ⟨0, 0, 0, 0, 0⟩
  else
    let uniq := ws.dedup
    let total : ℚ := ws.length
    let uniqN : ℚ := uniq.length
    let freqs : List ℚ := uniq.map (fun w => (freqOf ws w : ℚ))
    let ttr := if ws.length ≠ 0 then uniqN / total else 0
    let m2 := (freqs.map (fun f => f ^ 2)).sum
    let yule := if 0 < ws.length then 10000 * (m2 - total) / total ^ 2 else 0
    let simpson := if 1 < ws.length then 1 - (freqs.map (fun f => (f / total) ^ 2)).sum else 0
    let hapaxCount : ℚ := (freqs.filter (fun f => f = 1)).length
    let hapax := if uniq.length ≠ 0 then hapaxCount / uniqN else 0
    ⟨pyRound ttr 4, pyRound yule 2, pyRound simpson 4, pyRound hapax 4,
     pyRound (calculate_mtld ws) 2⟩

/-- `count_syllables`: vowel-cluster count with silent-e correction,
floored at 1. -/
def sylClusters : List Char → Bool → ℕ
  | [], _ => 0
  | c :: cs, prevV =>
    let isV := c = 'a' || c = 'e' || c = 'i' || c = 'o' || c = 'u' || c = 'y'
    (if isV && !prevV then 1 else 0) + sylClusters cs isV

def count_syllables (w : String) : ℕ :=
  let l := w.data.map Char.toLower
  let n := sylClusters l false
  let n2 := if l.getLast? = some 'e' then n - 1 else n
  max 1 n2

structure Readability where
  fre : ℚ
  fkg : ℚ
  fog : ℚ
  smog : ℝ
  cli : ℚ
  ari : ℚ

/-- `calculate_readability_scores`.  All formulas are field arithmetic
except SMOG's square root (ℝ, report-only). -/
noncomputable def calculate_readability_scores (text : String) (sentences : List String) :
    Readability :=
  let ws := wordsOf text
  if ws.isEmpty || sentences.isEmpty then ⟨0, 0, 0, 0, 0, 0⟩
  else
    let tw : ℚ := ws.length
    let tsn : ℚ := sentences.length
    let tsy : ℚ := (ws.map (fun w => (count_syllables w : ℚ))).sum
    let complexW : ℚ := (ws.filter (fun w => count_syllables w ≥ 3)).length
    let chars : ℚ := (ws.map (fun w => (w.length : ℚ))).sum
    let asl := if tsn ≠ 0 then tw / tsn else 0
    let asw := if tw ≠ 0 then tsy / tw else 0
    let fre := 206.835 - 1.015 * asl - 84.6 * asw
    let fkg := 0.39 * asl + 11.8 * asw - 15.59
    let pctComplex := if tw ≠ 0 then complexW / tw * 100 else 0
    let fog := 0.4 * (asl + pctComplex)
    let smog : ℝ :=
      if sentences.length ≥ 30 then
        1.0430 * Real.sqrt ((complexW : ℝ) * (30 / (tsn : ℝ))) + 3.1291
      else 0
    let lFactor := if tw ≠ 0 then chars / tw * 100 else 0
    let sFactor := if tw ≠ 0 then tsn / tw * 100 else 0
    let cli := 0.0588 * lFactor - 0.296 * sFactor - 15.8
    let ari := if tw ≠ 0 ∧ tsn ≠ 0 then 4.71 * (chars / tw) + 0.5 * (tw / tsn) - 21.43 else 0
    ⟨pyRound fre 2, pyRound (max 0 fkg) 2, pyRound fog 2, pyRoundR smog 2,
     pyRound cli 2, pyRound ari 2⟩

structure NgramRep where
  repScore : ℚ
  maxReps : ℕ
  deriving DecidableEq

def joinSp (ws : List String) : String := String.intercalate " " ws

/-- `calculate_ngram_repetition` (`n = 3` in the pipeline). -/
def calculate_ngram_repetition (text : String) (n : ℕ) : NgramRep :=
  let ws := wordsOf (lowerS text)
  if ws.length < n then ⟨0, 0⟩
  else
    let ngrams := (List.range (ws.length - n + 1)).map (fun i => joinSp ((ws.drop i).take n))
    let repeated := (ngrams.dedup.map (fun g => freqOf ngrams g)).filter (fun c => 1 < c)
    if repeated.isEmpty then ⟨0, 0⟩
    else
      let maxR := repeated.foldr max 0
      let totalN : ℚ := ngrams.length
      let repC : ℚ := (repeated.map (fun c => (c : ℚ))).sum
      let score := if totalN ≠ 0 then repC / totalN * 100 else 0
      ⟨pyRound score 2, maxR⟩

structure Burstiness where
  bScore : ℝ
  perplexVar : ℝ
  complexVar : ℝ

/-- The conjunction alternation of `calculate_burstiness`; every
alternative is a complete word bracketed by `\b`, so the match count
equals the count of word tokens in the set. -/
def conjWords : List String := ["and", "but", "or", "while", "because", "if", "when", "although"]

def conjCount (sent : String) : ℕ :=
  ((wordsOf (lowerS sent)).filter (· ∈ conjWords)).length

/-- `calculate_burstiness` (values rounded 4/2/2 as in the source). -/
noncomputable def calculate_burstiness (sentences : List String) : Burstiness :=
  if sentences.length < 2 then ⟨0, 0, 0⟩
  else
    let lens : List ℚ := sentences.map (fun s => ((wordsOf s).length : ℚ))
    let compl : List ℚ := sentences.map (fun s =>
      let ws := wordsOf s
      if ws.isEmpty then 0
      else ((ws.map (fun w => (w.length : ℚ))).sum / ws.length) +
           2 * ((s.data.filter (· = ',')).length : ℚ) + 1.5 * (conjCount s : ℚ))
    let meanLen := qMean lens
    let burst : ℝ := if 0 < meanLen then pstdevR lens / (meanLen : ℝ) else 0
    let cvarR : ℝ := if 2 ≤ compl.length then pstdevR compl else 0
    let windows := (List.range (if 3 ≤ lens.length + 1 then lens.length + 1 - 3 else 0)).map
      (fun i => (lens.drop i).take 3)
    let localVars : List ℝ := ((windows.filter (fun w => 2 ≤ w.length)).map pstdevR)
    let pvarProxy : ℝ := if localVars ≠ [] then localVars.sum / localVars.length else 0
    ⟨pyRoundR burst 4, pyRoundR pvarProxy 2, pyRoundR cvarR 2⟩

/-- `calculate_entropy`: character-level Shannon entropy of the lowered
text, frequencies from `Counter(text.lower())`, total `len(text)`;
rounded to 4 places.  Empty text short-circuits to 0. -/
noncomputable def calculate_entropy (text : String) : ℝ :=
  if text = "" then 0
  else
    let chars := text.data.map Char.toLower
    let total : ℚ := text.length
    let ent : ℝ := -(chars.dedup.map (fun c =>
      let p : ℚ := ((chars.filter (· = c)).length : ℚ) / total
      (p : ℝ) * Real.logb 2 (p : ℝ))).sum
    pyRoundR ent 4

/-- `detect_anomalies`: only the `anomaly_score` is consumed by the
pipeline; the anomaly descriptions are reportage. -/
noncomputable def detect_anomalies (text : String) (sentences paragraphs : List String) : ℚ :=
  let s1 : ℚ :=
    if sentences ≠ [] then
      let lens : List ℚ := (sentences.map (fun s => ((wordsOf s).length : ℚ))).filter (· ≠ 0)
      if 5 ≤ lens.length then
        let m := qMean lens
        let sd := pstdevR lens
        let outliers := lens.filter (fun l => 0 < sd ∧ 2.5 < |((l : ℝ) - (m : ℝ))| / sd)
        if (outliers.length : ℚ) / (lens.length : ℚ) < 0.05 then 10 else 0
      else 0
    else 0
  let s2 : ℚ :=
    if paragraphs ≠ [] then
      let plens : List ℚ := (paragraphs.map (fun p => ((wordsOf p).length : ℚ))).filter (· ≠ 0)
      if 3 ≤ plens.length then
        let mx := plens.foldr max (plens.headD 0)
        let mn := plens.foldr min (plens.headD 0)
        let avg := qMean plens
        if 50 < avg ∧ (mx - mn) / avg < 0.3 then 15 else 0
      else 0
    else 0
  let s3 : ℚ :=
    let ws := wordsOf text
    if ws ≠ [] then
      let wl : List ℚ := ws.map (fun w => (w.length : ℚ))
      if 50 ≤ wl.length then
        let shortR : ℚ := ((wl.filter (· ≤ 3)).length : ℚ) / wl.length
        let longR : ℚ := ((wl.filter (8 ≤ ·)).length : ℚ) / wl.length
        if 0.35 < shortR ∧ shortR < 0.45 ∧ 0.08 < longR ∧ longR < 0.15 then 5 else 0
      else 0
    else 0
  s1 + s2 + s3

/-! ## Marker-count dictionary -/

/-- The `marker_counts` dictionary threaded through the detectors.  Keys
are written once each, so an association list with first-match lookup is
an exact model of the Python dict. -/
abbrev MarkerCounts := List (String × ℚ)

/-- `marker_counts.get(key, 0)`. -/
def mcGet (mc : MarkerCounts) (k : String) : ℚ :=
  ((List.find? (fun e => e.1 = k) mc).map Prod.snd).getD 0

/-! ### `detect_pattern_correlations` -/

structure CorrPattern where
  keys : List String
  thresholds : List ℚ
  bonus : ℚ

def strongPatterns : List CorrPattern :=
  [⟨["A1_em_dash", "D2_formal_transitions", "E1_ai_words"], [3, 2, 3], 15⟩,
   ⟨["F1_para_uniformity", "G1_lack_specifics", "D1_hedging_overuse"], [1, 1.5, 2], 20⟩,
   ⟨["B1_transitional", "B2_enumeration", "F2_parallel_structures"], [4, 1, 1], 18⟩,
   ⟨["E2_contraction_avoidance", "E1_ai_words", "D2_formal_transitions"], [0.7, 4, 2], 12⟩]

def moderatePatterns : List CorrPattern :=
  [⟨["E3_vocab_uniformity", "D4_sentence_uniformity"], [1, 1], 10⟩,
   ⟨["I1_citation_anomalies", "I2_generic_method"], [1, 2], 15⟩]

/-- A correlation pattern fires when every marker value reaches its
threshold (`value >= threshold`). -/
def corrPatternMet (mc : MarkerCounts) (p : CorrPattern) : Bool :=
  (p.keys.zip p.thresholds).all (fun e => e.2 ≤ mcGet mc e.1)

/-- `detect_pattern_correlations(...)["correlation_bonus"]`: the summed
bonuses of the firing patterns, capped at 50. -/
def correlation_bonus (mc : MarkerCounts) : ℚ :=
  min 50 ((((strongPatterns ++ moderatePatterns).filter (corrPatternMet mc)).map
    (fun p => p.bonus)).sum)

/-! ### `bayesian_score_adjustment` -/

structure BayesResult where
  adjScore : ℝ
  posteriorPct : ℚ
  priorPct : ℚ
  lhAI : ℚ
  lhHuman : ℚ
  lhQuot : ℚ
  conf : ℚ

/-- The count the source calls `high_confidence_markers`: entries of
`marker_counts` whose KEY starts with `"A"` and whose VALUE (the raw
count, not the marker score) is positive (`advanced_features.py` lines
315–318). -/
def highConfidenceACount (mc : MarkerCounts) : ℕ :=
  (mc.filter (fun e => strStarts "A" e.1 && decide (0 < e.2))).length

/-- The likelihood step function `(P(E|AI), P(E|Human))` of
`bayesian_score_adjustment` lines 321–338, as a function of
`high_confidence_markers`. -/
def likelihoodPair (n : ℕ) : ℚ × ℚ :=
  (if 5 ≤ n then 0.95 else if 3 ≤ n then 0.80 else if 1 ≤ n then 0.60 else 0.30,
   if 5 ≤ n then 0.05 else if 3 ≤ n then 0.15 else if 1 ≤ n then 0.35 else 0.65)

noncomputable def bayesian_score_adjustment (baseS : ℝ) (mc : MarkerCounts)
    (dtype : String) (wc : ℕ) : BayesResult :=
  let prior : ℚ :=
    if dtype = "academic" then 0.15
    else if dtype = "business" then 0.25
    else if dtype = "general" then 0.30
    else 0.25
  let n := highConfidenceACount mc
  let la := (likelihoodPair n).1
  let lh := (likelihoodPair n).2
  let den := la * prior + lh * (1 - prior)
  let post := if 0 < den then la * prior / den else prior
  let adj : ℝ := baseS * ((post : ℝ) / (prior : ℝ))
  let conf : ℚ := if wc < 300 then 0.6 else if wc < 1000 then 0.8 else 1.0
  ⟨pyRoundR (min 100 adj) 2, pyRound (post * 100) 2, pyRound (prior * 100) 2,
   la, lh, pyRound (if 0 < lh then la / lh else 10) 2, conf⟩

/-! ### `calculate_contextual_adjustments`

The `readability` argument of the source is unused by the logic (the
complexity-based adjustments were removed), so it is not a parameter
here.  Returns (rounded adjusted score, total adjustment). -/

noncomputable def calculate_contextual_adjustments (baseS : ℝ) (dtype : String)
    (wc : ℕ) (mc : MarkerCounts) : ℝ × ℚ :=
  let adjAcademic : ℚ :=
    if dtype = "academic" then
      (if 0 < mcGet mc "D2_formal_transitions" ∧ mcGet mc "D2_formal_transitions" ≤ 4
       then -5 else 0) +
      (if mcGet mc "I1_citation_anomalies" ≤ 1 then -3 else 0)
    else 0
  let adjLen : ℚ := if wc < 300 then -5 else if 5000 < wc then 3 else 0
  let total := adjAcademic + adjLen
  (pyRoundR (max 0 (min 100 (baseS + (total : ℝ)))) 2, total)

/-! ## Document features

`DocumentFeatures` as produced by the parsing collaborator (spec §3):
text and paragraphs always present, everything else optional with
absent ⇒ empty/None.  Metadata timestamps are modelled as rational
minutes (only the comparison `modified < created + timedelta(minutes=10)`
consumes them). -/

structure Edit where
  kind : String := ""
  wordCount : ℕ := 0
  paragraphIndex : Option ℕ := none
  editText : String := ""
  deriving DecidableEq

structure DocMetadata where
  editingMinutes : Option ℚ := none
  revision : Option ℤ := none
  created : Option ℚ := none
  modified : Option ℚ := none

structure FontInfo where
  clusters : ℕ := 0

structure StyleInfo where
  headingStyles : List String := []
  listStyles : List String := []
  spacingValues : List ℚ := []

structure DocFeatures where
  filename : String := ""
  text : String
  paragraphs : List String
  metadata : DocMetadata := {}
  trackChanges : List Edit := []
  fontInfo : FontInfo := {}
  styleInfo : StyleInfo := {}

/-- A marker result.  `name`/`description` and the evidence snippets are
presentation fields and not modelled; `score` is the raw score (capped
against `maxContribution` by the aggregator, which also writes the capped
value back, exactly as `analyze_document` lines 144–146 do). -/
structure MarkerResult where
  markerId : String
  category : String
  count : ℕ
  score : ℝ
  maxContribution : ℚ

/-! ## `difflib.SequenceMatcher` (junk-free)

`calculate_changed_words` diffs word sequences with
`SequenceMatcher(None, a, b)`.  Its matching blocks are computed by
recursively taking the longest matching block, preferring the earliest
start in `a` and then in `b` among maximal blocks; the autojunk
heuristic only activates for sequences of length ≥ 200 with popular
elements and is not modelled (no settled claim evaluates the diff on
such inputs). -/

def commonPrefixLen : List String → List String → ℕ
  | a :: as, b :: bs => if a = b then 1 + commonPrefixLen as bs else 0
  | _, _ => 0

def matchLenAt (a b : List String) (i j : ℕ) : ℕ :=
  commonPrefixLen (a.drop i) (b.drop j)

/-- `find_longest_match(alo, ahi, blo, bhi)`: the maximal block, earliest
in `a`, then earliest in `b`. -/
def bestMatch (a b : List String) (alo ahi blo bhi : ℕ) : ℕ × ℕ × ℕ :=
  let cand := ((List.range (ahi - alo)).map (fun di => alo + di)).flatMap (fun i =>
    ((List.range (bhi - blo)).map (fun dj => blo + dj)).map (fun j =>
      (i, j, min (matchLenAt a b i j) (min (ahi - i) (bhi - j)))))
  cand.foldl (fun best c => if best.2.2 < c.2.2 then c else best) (alo, blo, 0)

def matchingBlocksGo (a b : List String) : ℕ → ℕ × ℕ × ℕ × ℕ → List (ℕ × ℕ × ℕ)
  | 0, _ => []
  | fuel + 1, (alo, ahi, blo, bhi) =>
    match bestMatch a b alo ahi blo bhi with
    | (i, j, k) =>
      if k = 0 then []
      else
        matchingBlocksGo a b fuel (alo, i, blo, j) ++ [(i, j, k)] ++
        matchingBlocksGo a b fuel (i + k, ahi, j + k, bhi)

/-- `get_matching_blocks()` including the terminal zero-length block. -/
def matchingBlocks (a b : List String) : List (ℕ × ℕ × ℕ) :=
  matchingBlocksGo a b (a.length + b.length + 1) (0, a.length, 0, b.length) ++
    [(a.length, b.length, 0)]

/-- `calculate_changed_words`: over the opcodes, every non-`equal` opcode
contributes `max(i2 - i1, j2 - j1)`; equivalently, each gap between
consecutive matching blocks contributes the larger of its two side
lengths. -/
def calculate_changed_words (orig edited : List String) : ℕ :=
  ((matchingBlocks orig edited).foldl
    (fun acc blk =>
      match acc, blk with
      | (ci, cj, changed), (i, j, k) => (i + k, j + k, changed + max (i - ci) (j - cj)))
    ((0, 0, 0) : ℕ × ℕ × ℕ)).2.2

/-! ## Category detectors -/

/-- A1 tiered score (`detect_category_a` lines 328–333). -/
def a1scoreQ (n : ℕ) : ℚ :=
  if n ≤ 2 then 0
  else if n ≤ 5 then ((n : ℚ) - 2) * 15
  else 45 + ((n : ℚ) - 5) * 20

/-- A2 score (`detect_category_a` lines 350–354). -/
def a2scoreQ (count wc : ℕ) : ℚ :=
  let density : ℚ := if wc ≠ 0 then (count : ℚ) / wc * 500 else 0
  let excess := max 0 (density - 1)
  if wc ≠ 0 then excess * 10 * ((wc : ℚ) / 500) else 0

/-- A4 cluster count (`detect_category_a` lines 392–398). -/
def a4clusters (text : String) (paragraphs : List String) : ℕ :=
  if 0 < straightQuoteCount text ∧ 0 < smartQuoteCount text then
    (paragraphs.filter (fun p => hasStraightQuote p && hasSmartQuote p)).length
  else 0

noncomputable def detect_category_a (text : String) (wc : ℕ) (paragraphs : List String) :
    List MarkerResult :=
  [⟨"A1", "A", emDashCount text, ((a1scoreQ (emDashCount text) : ℚ) : ℝ), 150⟩,
   ⟨"A2", "A", colonSemiCount text, ((a2scoreQ (colonSemiCount text) wc : ℚ) : ℝ), 100⟩,
   ⟨"A3", "A", subSuperCount text, (((subSuperCount text : ℚ) * 25 : ℚ) : ℝ), 150⟩,
   ⟨"A4", "A", a4clusters text paragraphs, (((a4clusters text paragraphs : ℚ) * 5 : ℚ) : ℝ), 50⟩]

def transitionWords : List String :=
  ["furthermore", "moreover", "additionally", "consequently", "subsequently",
   "nevertheless", "nonetheless", "correspondingly"]

def enumWords : List String :=
  ["firstly", "first", "secondly", "second", "thirdly", "third",
   "fourthly", "fourth", "finally", "lastly"]

def b1count (sents : List String) : ℕ :=
  (sents.filter (sentStartsWithAny transitionWords)).length

def b1scoreQ (count wc : ℕ) : ℚ :=
  let expected : ℚ := if wc ≠ 0 then (wc : ℚ) / 1000 * 2 else 0
  max 0 ((count : ℚ) - expected) * 8

/-- B2 run scoring (`detect_category_b` lines 490–506): a maximal run of
flagged sentences scores +6 at length 2 and +12 at length ≥ 3, counting
one sequence either way. -/
def b2goF : ℕ → List Bool → ℕ × ℚ
  | 0, _ => (0, 0)
  | _ + 1, [] => (0, 0)
  | fuel + 1, b :: bs =>
    if b then
      let run := 1 + (bs.takeWhile id).length
      let rest := bs.dropWhile id
      match b2goF fuel rest with
      | (seqs, sc) =>
        if run = 2 then (seqs + 1, sc + 6)
        else if 3 ≤ run then (seqs + 1, sc + 12)
        else (seqs, sc)
    else b2goF fuel bs

def b2go (flags : List Bool) : ℕ × ℚ := b2goF flags.length flags

def b2data (sents : List String) : ℕ × ℚ :=
  b2go (sents.map (sentStartsWithAny enumWords))

noncomputable def detect_category_b (text : String) (wc : ℕ) (sents : List String) :
    List MarkerResult :=
  [⟨"B1", "B", b1count sents, ((b1scoreQ (b1count sents) wc : ℚ) : ℝ), 80⟩,
   ⟨"B2", "B", (b2data sents).1, (((b2data sents).2 : ℚ) : ℝ), 60⟩,
   ⟨"B3", "B", b3count text, (((b3count text : ℚ) * 5 : ℚ) : ℝ), 50⟩,
   ⟨"B4", "B", b4count text, (((b4count text : ℚ) * 3 : ℚ) : ℝ), 30⟩,
   ⟨"B5", "B", 0, 0, 50⟩]

/-- C1 extent of edit (0 when no original document is supplied). -/
def eoeOf (doc : DocFeatures) (original : Option DocFeatures) (wc : ℕ) : ℚ :=
  match original with
  | some o =>
    let cw := calculate_changed_words (wordsOf o.text) (wordsOf doc.text)
    if wc ≠ 0 then (cw : ℚ) / wc * 100 else 0
  | none => 0

def c1scoreQ (eoe : ℚ) : ℚ :=
  if 100 < eoe then 30 + (⌊(eoe - 100) / 10⌋ : ℚ) * 5 else 0

def c2largeChunks (doc : DocFeatures) : ℕ :=
  (doc.trackChanges.filter (fun e => e.kind = "ins" && 50 < e.wordCount)).length

/-- C3 editing-time analysis: the ratio exists only when editing minutes
are recorded and the document has words. -/
def c3ratioOpt (doc : DocFeatures) (wc : ℕ) : Option ℚ :=
  match doc.metadata.editingMinutes with
  | some em =>
    if wc ≠ 0 then
      let expectedHours : ℚ := (wc : ℚ) / 1000
      some (if expectedHours ≠ 0 then (em / 60) / expectedHours else 0)
    else none
  | none => none

def c3scoreQ (r : Option ℚ) : ℚ :=
  match r with
  | some t => if t < 0.3 then 30 else if t < 0.5 then 15 else if t < 0.7 then 5 else 0
  | none => 0

/-- C4 edit clustering (`detect_category_c` lines 709–727).  The float
`int((idx / total_paras) * 10)` is modelled as exact truncation. -/
def c4clustered (doc : DocFeatures) : Bool :=
  if doc.trackChanges ≠ [] ∧ doc.paragraphs ≠ [] then
    let totalParas := max 1 doc.paragraphs.length
    let segs := doc.trackChanges.filterMap
      (fun e => e.paragraphIndex.map (fun idx => min 9 (idx * 10 / totalParas)))
    let counts := (List.range 10).map (fun s => (segs.filter (· = s)).length)
    let totalEdits := counts.sum
    if totalEdits ≠ 0 then
      let m1 := counts.foldr max 0
      let m2 := (counts.erase m1).foldr max 0
      decide ((0.6 : ℚ) < ((m1 + m2 : ℕ) : ℚ) / totalEdits)
    else false
  else false

noncomputable def detect_category_c (doc : DocFeatures) (original : Option DocFeatures)
    (wc : ℕ) : List MarkerResult :=
  let eoe := eoeOf doc original wc
  [⟨"C1", "C", if 100 < eoe then 1 else 0, ((c1scoreQ eoe : ℚ) : ℝ), 80⟩,
   ⟨"C2", "C", c2largeChunks doc, (((c2largeChunks doc : ℚ) * 20 : ℚ) : ℝ), 100⟩,
   ⟨"C3", "C", if 0 < c3scoreQ (c3ratioOpt doc wc) then 1 else 0,
      ((c3scoreQ (c3ratioOpt doc wc) : ℚ) : ℝ), 30⟩,
   ⟨"C4", "C", if c4clustered doc then 1 else 0,
      (((if c4clustered doc then 15 else 0 : ℚ)) : ℝ), 15⟩]

def d1scoreQ (count wc : ℕ) : ℚ :=
  let expected : ℚ := if wc ≠ 0 then (wc : ℚ) / 1000 * 2 else 0
  max 0 ((count : ℚ) - expected) * 4

def d3pctQ (count wc : ℕ) : ℚ := if wc ≠ 0 then (count : ℚ) / wc * 100 else 0

def d3scoreQ (count wc : ℕ) : ℚ :=
  if 25 < d3pctQ count wc then d3pctQ count wc - 25 else 0

/-- The sentence-length sample of D4/INCONSISTENT_STYLE
(`[len(WORD_RE.findall(s)) for s in sentences if WORD_RE.findall(s)]`). -/
def sentenceLens (sents : List String) : List ℚ :=
  (sents.map (fun s => ((wordsOf s).length : ℚ))).filter (· ≠ 0)

noncomputable def d4score (sents : List String) : ℝ :=
  let lens := sentenceLens sents
  if 2 ≤ lens.length then
    if pstdevR lens < 5 then ((5 : ℝ) - pstdevR lens) * 10 else 0
  else 0

noncomputable def detect_category_d (text : String) (wc : ℕ) (sents : List String) :
    List MarkerResult :=
  [⟨"D1", "D", d1count text, ((d1scoreQ (d1count text) wc : ℚ) : ℝ), 40⟩,
   ⟨"D2", "D", d2count text, (((d2count text : ℚ) * 3 : ℚ) : ℝ), 30⟩,
   ⟨"D3", "D", passiveCount text, ((d3scoreQ (passiveCount text) wc : ℚ) : ℝ), 25⟩,
   ⟨"D4", "D", 0, d4score sents, 30⟩]

def e1scoreQ (text : String) : ℚ :=
  let ws := e1words text
  let uc := ws.dedup.length
  (if 9 ≤ uc then 50 else if 6 ≤ uc then 30 else if 3 ≤ uc then 15 else 0) +
  (if ws.dedup.any (fun w => 3 ≤ freqOf ws w) then 10 else 0)

def e2totalCount (text : String) : ℕ := e2expandedCount text + e2contractionCount text

/-- E2 avoidance value as stored in `marker_counts` (0 unless more than 5
occurrences). -/
def e2avoidQ (text : String) : ℚ :=
  if 5 < e2totalCount text then (e2expandedCount text : ℚ) / e2totalCount text else 0

def e2scoreQ (text : String) : ℚ :=
  if 5 < e2totalCount text then
    if 10 < e2totalCount text then
      if 0.9 < e2avoidQ text then 25
      else if 0.8 < e2avoidQ text then 15
      else if 0.7 < e2avoidQ text then 5
      else 0
    else 0
  else 0

def paraAvgLens (paragraphs : List String) : List ℚ :=
  paragraphs.filterMap (fun p =>
    let ws := wordsOf p
    if ws.isEmpty then none
    else some ((ws.map (fun w => (w.length : ℚ))).sum / ws.length))

noncomputable def e3score (paragraphs : List String) : ℝ :=
  let al := paraAvgLens paragraphs
  if 2 ≤ al.length then
    if pstdevR al < 0.2 then 20 else if pstdevR al < 0.3 then 10 else 0
  else 0

noncomputable def detect_category_e (text : String) (paragraphs : List String) :
    List MarkerResult :=
  [⟨"E1", "E", (e1words text).dedup.length, ((e1scoreQ text : ℚ) : ℝ), 70⟩,
   ⟨"E2", "E", e2totalCount text, ((e2scoreQ text : ℚ) : ℝ), 25⟩,
   ⟨"E3", "E", 0, e3score paragraphs, 20⟩]

def paraLens (paragraphs : List String) : List ℚ :=
  (paragraphs.map (fun p => ((wordsOf p).length : ℚ))).filter (· ≠ 0)

noncomputable def f1score (paragraphs : List String) : ℝ :=
  let pl := paraLens paragraphs
  if 2 ≤ pl.length then
    let m := qMean pl
    let cv : ℝ := if m ≠ 0 then pstdevR pl / (m : ℝ) else 0
    if cv < 0.15 then 25 else if cv < 0.25 then 15 else if cv < 0.35 then 5 else 0
  else 0

/-- F2: first-three-word patterns of each sentence; empty sentences yield
`""` and never start a run. -/
def f2patterns (sents : List String) : List String :=
  sents.map (fun s => joinSp ((wordsOf (lowerS s)).take 3))

def f2goF : ℕ → List String → ℕ × ℚ
  | 0, _ => (0, 0)
  | _ + 1, [] => (0, 0)
  | fuel + 1, p :: ps =>
    if p = "" then f2goF fuel ps
    else
      let run := 1 + (ps.takeWhile (· = p)).length
      let rest := ps.dropWhile (· = p)
      match f2goF fuel rest with
      | (sets, sc) => if 4 ≤ run then (sets + 1, sc + 10) else (sets, sc)

def f2go (ps : List String) : ℕ × ℚ := f2goF ps.length ps

def bulletChar : Char := Char.ofNat 0x2022

def isBulletLine (l : String) : Bool :=
  strStarts "-" l || strStarts (String.mk [bulletChar]) l ||
  (decide (1 ≤ (l.data.takeWhile isDigit09).length) &&
   (match l.data.drop (l.data.takeWhile isDigit09).length with
    | '.' :: _ => true
    | _ => false))

def balGo : Option Bool → List String → ℕ × ℕ
  | _, [] => (0, 0)
  | cur, l :: ls =>
    let h := lowerS l
    if strStarts "pros" h || strStarts "advantages" h || strStarts "benefits" h then
      balGo (some true) ls
    else if strStarts "cons" h || strStarts "disadvantages" h ||
            strStarts "limitations" h then
      balGo (some false) ls
    else
      match balGo cur ls, isBulletLine l, cur with
      | (p, c), true, some true => (p + 1, c)
      | (p, c), true, some false => (p, c + 1)
      | (p, c), _, _ => (p, c)

/-- `find_balanced_sections` (`splitlines` modelled by splitting on
`"\n"`, the only line separator in the modelled documents). -/
def find_balanced_sections (text : String) : ℕ × ℕ :=
  balGo none (((splitOnChar '\n' text).map pyStrip).filter (· ≠ ""))

def f3scoreQ (text : String) : ℚ :=
  match find_balanced_sections text with
  | (p, c) => if 4 ≤ p ∧ p = c then 15 else 0

noncomputable def detect_category_f (text : String) (paragraphs : List String)
    (sents : List String) : List MarkerResult :=
  [⟨"F1", "F", 0, f1score paragraphs, 25⟩,
   ⟨"F2", "F", (f2go (f2patterns sents)).1, (((f2go (f2patterns sents)).2 : ℚ) : ℝ), 30⟩,
   ⟨"F3", "F", if 0 < f3scoreQ text then 1 else 0, ((f3scoreQ text : ℚ) : ℝ), 15⟩]

/-- G1 specific items, POS-unavailable fallback (`detect_category_g`
lines 1136–1139): capitalised words plus digit runs. -/
def g1specificItems (text : String) : ℕ := propNounFallbackCount text + digitRunCount text

def g1ratioQ (text : String) : ℚ :=
  (vagueCount text : ℚ) / ((g1specificItems text : ℚ) + 1)

def g1scoreQ (text : String) : ℚ :=
  if 3 < g1ratioQ text then 25
  else if 2 < g1ratioQ text then 15
  else if 1 < g1ratioQ text then 5
  else 0

noncomputable def detect_category_g (text : String) (sents : List String) :
    List MarkerResult :=
  [⟨"G1", "G", vagueCount text, ((g1scoreQ text : ℚ) : ℝ), 25⟩,
   ⟨"G2", "G", circularCount sents, (((circularCount sents : ℚ) * 15 : ℚ) : ℝ), 30⟩,
   ⟨"G3", "G", g3count text, (((g3count text : ℚ) * 3 : ℚ) : ℝ), 30⟩]

def h2count (doc : DocFeatures) : ℕ :=
  (if 1 < doc.styleInfo.headingStyles.length then 1 else 0) +
  (if 1 < doc.styleInfo.listStyles.length then 1 else 0) +
  (if 1 < doc.styleInfo.spacingValues.length then 1 else 0)

/-- H3 anomaly components (`detect_category_h` lines 1289–1298). -/
def h3lowRevision (doc : DocFeatures) (wc : ℕ) : Bool :=
  5000 < wc && (match doc.metadata.revision with | some r => r < 3 | none => false)

def h3fastModify (doc : DocFeatures) (wc : ℕ) : Bool :=
  match doc.metadata.created, doc.metadata.modified with
  | some c, some m => m < c + 10 && 5000 < wc
  | _, _ => false

def h3count (doc : DocFeatures) (wc : ℕ) : ℕ :=
  (if h3lowRevision doc wc then 1 else 0) + (if h3fastModify doc wc then 1 else 0)

def h3scoreQ (doc : DocFeatures) (wc : ℕ) : ℚ :=
  (if h3lowRevision doc wc then 20 else 0) + (if h3fastModify doc wc then 15 else 0)

noncomputable def detect_category_h (doc : DocFeatures) (wc : ℕ) : List MarkerResult :=
  [⟨"H1", "H", doc.fontInfo.clusters, (((doc.fontInfo.clusters : ℚ) * 10 : ℚ) : ℝ), 40⟩,
   ⟨"H2", "H", h2count doc, (((h2count doc : ℚ) * 5 : ℚ) : ℝ), 25⟩,
   ⟨"H3", "H", h3count doc wc, ((h3scoreQ doc wc : ℚ) : ℝ), 25⟩,
   ⟨"H5", "H", h5clusters doc.text, (((h5clusters doc.text : ℚ) * 10 : ℚ) : ℝ), 40⟩]

def i1clusters (text : String) : ℕ :=
  (if 0 < authorYearCount text ∧ 0 < numericCiteCount text then 1 else 0) +
  (if 3 ≤ roundYearCount text then 1 else 0) +
  (if 3 ≤ etAlCount text then 1 else 0)

def methodologyMarkers : List String :=
  ["standard procedures were followed", "appropriate statistical methods",
   "conventional techniques", "established protocols"]

def i2count (text : String) : ℕ :=
  (methodologyMarkers.map (fun m => countLitCI m text)).sum

def i2scoreQ (text : String) : ℚ :=
  if 4 ≤ i2count text then 20 else if 2 ≤ i2count text then 10 else 0

def i3scoreQ (paragraphs : List String) : ℚ :=
  match paragraphs.findIdx? isResultsPara with
  | some idx =>
    let sectionText := joinSp ((paragraphs.drop idx).take 5)
    let hasNumbers := sectionText.data.any isDigit09
    if ¬hasNumbers ∧
       i3qualMarkers.any (fun m => containsSub m.data (sectionText.data.map Char.toLower))
    then 15 else 0
  | none => 0

noncomputable def detect_category_i (text : String) (paragraphs : List String) :
    List MarkerResult :=
  [⟨"I1", "I", i1clusters text, (((i1clusters text : ℚ) * 15 : ℚ) : ℝ), 45⟩,
   ⟨"I2", "I", i2count text, ((i2scoreQ text : ℚ) : ℝ), 20⟩,
   ⟨"I3", "I", if 0 < i3scoreQ paragraphs then 1 else 0, ((i3scoreQ paragraphs : ℚ) : ℝ), 15⟩]

def j1rewritten (doc : DocFeatures) : ℕ :=
  if doc.trackChanges ≠ [] then
    let pwc := doc.paragraphs.map (fun p => (wordsOf p).length)
    let idxs := (doc.trackChanges.filterMap (fun e => e.paragraphIndex)).dedup
    (idxs.filter (fun idx =>
      let ew := ((doc.trackChanges.filter (fun e => e.paragraphIndex = some idx)).map
        (fun e => e.wordCount)).sum
      let tw := pwc.getD idx 0
      tw ≠ 0 ∧ (1 : ℚ) / 2 < (ew : ℚ) / tw)).length
  else 0

def j1ratioQ (doc : DocFeatures) : ℚ :=
  (j1rewritten doc : ℚ) / (max 1 doc.paragraphs.length : ℚ)

def j1scoreQ (doc : DocFeatures) : ℚ :=
  if 0.8 < j1ratioQ doc then 35
  else if 0.6 < j1ratioQ doc then 20
  else if 0.4 < j1ratioQ doc then 10
  else 0

def j2data (edits : List Edit) : ℕ × ℕ :=
  let nonzero := edits.filter (fun e => e.wordCount ≠ 0)
  ((nonzero.filter (fun e => 20 ≤ e.wordCount)).length, nonzero.length)

def j2ratioQ (edits : List Edit) : ℚ :=
  match j2data edits with
  | (s, t) => if t ≠ 0 then (s : ℚ) / t else 0

def j2scoreQ (edits : List Edit) : ℚ :=
  if 0.7 < j2ratioQ edits then 25 else if 0.5 < j2ratioQ edits then 15 else 0

noncomputable def detect_category_j (doc : DocFeatures) : List MarkerResult :=
  [⟨"J1", "J", j1rewritten doc, ((j1scoreQ doc : ℚ) : ℝ), 35⟩,
   ⟨"J2", "J", (j2data doc.trackChanges).1, ((j2scoreQ doc.trackChanges : ℚ) : ℝ), 25⟩]

/-! ## Human indicators (`detect_human_indicators`) -/

/-- COLLOQUIALISMS matcher `\b\w+'[a-z]+\b` (not case-insensitive): a
word run, an apostrophe, a nonempty lowercase run, then a boundary.  If
a word character follows the maximal lowercase run, every backtracking
position also fails (the next character is then a lowercase letter), so
the alternative fails outright. -/
def mContraction (prev : Option Char) (cs : List Char) : Option ℕ :=
  if prevIsWord prev then none
  else
    match (cs.takeWhile isWordChar).length with
    | 0 => none
    | n + 1 =>
      match cs.drop (n + 1) with
      | q :: rest2 =>
        if q = apoChar then
          match (rest2.takeWhile isLowerAZ).length with
          | 0 => none
          | m + 1 =>
            match rest2.drop (m + 1) with
            | d :: _ => if isWordChar d then none else some (n + 1 + 1 + (m + 1))
            | [] => some (n + 1 + 1 + (m + 1))
        else none
      | [] => none

def colloqCount (s : String) : ℕ := countMatchesPrev mContraction s.data

def personalWords : List String := ["i", "we", "my", "our", "me", "us"]

/-- PERSONAL_VOICE `\b(I|we|my|our|me|us)\b` (case-insensitive): each
alternative is a complete word, so the match count is the count of word
tokens in the set. -/
def personalCount (s : String) : ℕ :=
  ((wordsOf (lowerS s)).filter (· ∈ personalWords)).length

/-- DOMAIN_EXPERTISE detail value (POS-unavailable fallback: capitalised
words plus digit runs over the word count). -/
def detailQ (text : String) (wc : ℕ) : ℚ :=
  if wc ≠ 0 then ((propNounFallbackCount text + digitRunCount text : ℕ) : ℚ) / wc else 0

structure HumanIndicator where
  hid : String
  reduction : ℚ
  deriving DecidableEq

/-- `detect_human_indicators`: the five independent detectors in source
order; the reduction is the sum of the triggered entries. -/
noncomputable def detect_human_indicators (text : String) (sents : List String)
    (wc : ℕ) (doc : DocFeatures) : List HumanIndicator :=
  (if doc.trackChanges ≠ [] ∧
      10 ≤ (doc.trackChanges.filter (fun e => 0 < e.wordCount && e.wordCount ≤ 2)).length
   then [⟨"TYPO_PATTERN", 15⟩] else []) ++
  (if 2 ≤ (sentenceLens sents).length ∧ (12 : ℝ) < pstdevR (sentenceLens sents)
   then [⟨"INCONSISTENT_STYLE", 10⟩] else []) ++
  (if 5 ≤ personalCount text then [⟨"PERSONAL_VOICE", 20⟩] else []) ++
  (if (8 : ℚ) / 100 < detailQ text wc then [⟨"DOMAIN_EXPERTISE", 15⟩] else []) ++
  (if wc ≠ 0 ∧ (2 : ℚ) / 100 < (colloqCount text : ℚ) / wc
   then [⟨"COLLOQUIALISMS", 10⟩] else [])

noncomputable def human_reduction (text : String) (sents : List String) (wc : ℕ)
    (doc : DocFeatures) : ℚ :=
  ((detect_human_indicators text sents wc doc).map (fun h => h.reduction)).sum

/-! ## Confidence, classification, overrides -/

/-- `adjust_for_confidence`: (rounded adjusted score, confidence factor). -/
noncomputable def adjust_for_confidence (finalScore : ℝ) (docLen markersFound : ℕ) :
    ℝ × ℚ :=
  let cf : ℚ := if docLen < 500 then 0.7 else if docLen < 1000 then 0.85 else 1
  let fs : ℝ := if markersFound < 3 ∧ (50 : ℝ) < finalScore then finalScore * 0.8
                else finalScore
  (pyRoundR (fs * (cf : ℝ)) 1, cf)

def riskOrder : List String := ["MINIMAL", "LOW", "MODERATE", "HIGH", "CRITICAL"]

def rankOf (c : String) : ℕ := riskOrder.indexOf c

/-- The score-band classification of `classify_risk` before marker-count
upgrades. -/
noncomputable def bandClassification (score : ℝ) : String :=
  if score ≤ 15 then "MINIMAL"
  else if score ≤ 35 then "LOW"
  else if score ≤ 55 then "MODERATE"
  else if score ≤ 75 then "HIGH"
  else "CRITICAL"

noncomputable def classify_risk (score : ℝ) (highConfidenceMarkers : ℕ) : String :=
  let c1 := bandClassification score
  let c2 := if 3 ≤ highConfidenceMarkers ∧ (c1 = "MINIMAL" ∨ c1 = "LOW")
            then "MODERATE" else c1
  if 5 ≤ highConfidenceMarkers ∧ c2 = "MODERATE" then "HIGH" else c2

structure CompositeHit where
  pid : String
  bonus : ℚ
  autoClassify : String
  deriving DecidableEq

/-- `apply_composite_override`: raise the classification to the maximum
of all forced floors, never lowering it. -/
def apply_composite_override (classification : String) (comps : List CompositeHit) :
    String :=
  if comps.isEmpty then classification
  else
    riskOrder.getD
      (comps.foldl
        (fun cur comp =>
          if comp.autoClassify ∈ riskOrder then max cur (rankOf comp.autoClassify)
          else cur)
        (rankOf classification))
      ""

def confidence_level (cf : ℚ) : String :=
  if 0.9 ≤ cf then "HIGH" else if 0.75 ≤ cf then "MEDIUM" else "LOW"

def recommendation_for_classification (c : String) : String :=
  if c = "MINIMAL" ∨ c = "LOW" then
    "Low probability of AI use. No action needed; monitor only and document evidence."
  else if c = "MODERATE" then
    "Medium probability of AI use. Manual review recommended; investigate and offer re-edit if needed."
  else if c = "HIGH" then
    "High probability of AI use. Investigation required with remediation planning."
  else
    "Critical probability of AI use. Immediate escalation and remediation required."

/-! ## Composite pattern engine -/

structure CompositePattern where
  pid : String
  requiredMarkers : List String
  bonusScore : ℚ
  autoClassify : String

/-- The fixed composite catalog (`check_composite_patterns` lines
1788–1840), in dict insertion order. -/
def composite_catalog : List CompositePattern :=
  [⟨"SMOKING_GUN_1", ["A1_em_dash >= 5", "H5_clipboard_artifacts", "J4_time_gap"],
    50, "HIGH"⟩,
   ⟨"SMOKING_GUN_2", ["E1_ai_words >= 5", "B1_transitional >= 4", "F1_para_uniformity"],
    40, "HIGH"⟩,
   ⟨"SMOKING_GUN_3", ["C1_eoe > 100", "C2_large_chunks >= 2", "J1_wholesale"],
    60, "CRITICAL"⟩,
   ⟨"SUSPICIOUS_COMBO_1",
    ["G1_lack_specifics", "I2_generic_method >= 2", "D1_hedging_overuse >= 2"],
    25, "MODERATE"⟩,
   ⟨"SUSPICIOUS_COMBO_2",
    ["H1_font_inconsistent", "H2_style_inconsistent", "H5_clipboard_artifacts"],
    30, "MODERATE"⟩]

def digitsToNat (l : List Char) : ℕ :=
  l.foldl (fun acc c => acc * 10 + (c.toNat - '0'.toNat)) 0

/-- `float(value)` restricted to the nonnegative decimal literals that
occur in the catalog (Python `float` accepts further forms, none used). -/
def pyFloatParse (s : String) : Option ℚ :=
  match s.data.splitOn '.' with
  | [intPart] =>
    if intPart ≠ [] ∧ intPart.all isDigit09 then some ((digitsToNat intPart : ℕ) : ℚ)
    else none
  | [intPart, fracPart] =>
    if (intPart ≠ [] ∨ fracPart ≠ []) ∧ intPart.all isDigit09 ∧ fracPart.all isDigit09
    then some (((digitsToNat intPart : ℕ) : ℚ) +
               ((digitsToNat fracPart : ℕ) : ℚ) / 10 ^ fracPart.length)
    else none
  | _ => none

/-- `evaluate_condition`.  `condition.split()` splits on whitespace runs
(the catalog uses single spaces); a single token is a truthy check
(a float value is truthy iff nonzero — `marker_counts` never holds
`False`/`None`); three tokens compare against the parsed threshold with
`%` characters removed. -/
def evaluate_condition (cond : String) (mc : MarkerCounts) : Bool :=
  match (splitOnChar ' ' cond).filter (· ≠ "") with
  | [k] => mcGet mc k ≠ 0
  | [k, op, v] =>
    match pyFloatParse (String.mk (v.data.filter (· ≠ '%'))) with
    | some target =>
      if op = ">=" then target ≤ mcGet mc k
      else if op = ">" then target < mcGet mc k
      else if op = "<=" then mcGet mc k ≤ target
      else if op = "==" then mcGet mc k = target
      else false
    | none => false
  | _ => false

def check_composite_patterns (mc : MarkerCounts) : List CompositeHit :=
  (composite_catalog.filter
    (fun p => p.requiredMarkers.all (fun c => evaluate_condition c mc))).map
    (fun p => ⟨p.pid, p.bonusScore, p.autoClassify⟩)

def composite_bonus (mc : MarkerCounts) : ℚ :=
  ((check_composite_patterns mc).map (fun h => h.bonus)).sum

/-! ## Document type -/

def academicSignals : List String :=
  ["abstract", "introduction", "methodology", "results", "discussion",
   "conclusion", "references", "et al.", "p-value", "hypothesis", "statistical"]

def businessSignals : List String :=
  ["executive summary", "stakeholder", "roi", "kpi", "deliverable",
   "milestone", "quarterly"]

def detect_document_type (text : String) : String :=
  let lower := lowerS text
  if 5 < (academicSignals.filter (fun s => containsSubStr s lower)).length then "academic"
  else if 3 < (businessSignals.filter (fun s => containsSubStr s lower)).length then
    "business"
  else "general"

/-! ## Category tables and aggregation -/

def categoriesList : List String := ["A", "B", "C", "D", "E", "F", "G", "H", "I", "J"]

/-- `CATEGORY_WEIGHTS`. -/
def categoryWeight (c : String) : ℚ :=
  if c = "A" then 0.30 else if c = "B" then 0.15 else if c = "C" then 0.15
  else if c = "D" then 0.05 else if c = "E" then 0.10 else if c = "F" then 0.08
  else if c = "G" then 0.07 else if c = "H" then 0.05 else if c = "I" then 0.03
  else if c = "J" then 0.02 else 0

/-- `CATEGORY_CAPS`. -/
def categoryCap (c : String) : ℚ :=
  if c = "A" then 450 else if c = "B" then 270 else if c = "C" then 225
  else if c = "D" then 125 else if c = "E" then 155 else if c = "F" then 100
  else if c = "G" then 125 else if c = "H" then 180 else if c = "I" then 120
  else if c = "J" then 105 else 0

/-- All marker results, detector by detector in call order
(`analyze_document` lines 121–138). -/
noncomputable def markerResults (doc : DocFeatures) (original : Option DocFeatures) :
    List MarkerResult :=
  let text := doc.text
  let wc := count_words text
  let sents := sentencesOf text
  detect_category_a text wc doc.paragraphs ++
  detect_category_b text wc sents ++
  detect_category_c doc original wc ++
  detect_category_d text wc sents ++
  detect_category_e text doc.paragraphs ++
  detect_category_f text doc.paragraphs sents ++
  detect_category_g text sents ++
  detect_category_h doc wc ++
  detect_category_i text doc.paragraphs ++
  detect_category_j doc

/-- The `marker_counts` dictionary after all detectors ran, in insertion
order (each detector writes its keys once). -/
noncomputable def markerCounts (doc : DocFeatures) (original : Option DocFeatures) :
    MarkerCounts :=
  let text := doc.text
  let wc := count_words text
  let sents := sentencesOf text
  [("A1_em_dash", (emDashCount text : ℚ)),
   ("A2_colon_semicolon", (colonSemiCount text : ℚ)),
   ("A3_unicode_subscript", (subSuperCount text : ℚ)),
   ("A4_mixed_quotes", (a4clusters text doc.paragraphs : ℚ)),
   ("B1_transitional", (b1count sents : ℚ)),
   ("B2_enumeration", ((b2data sents).1 : ℚ)),
   ("B3_spacing", (b3count text : ℚ)),
   ("B4_line_breaks", (b4count text : ℚ)),
   ("B5_repetitive", 0),
   ("C1_eoe", eoeOf doc original wc),
   ("C2_large_chunks", (c2largeChunks doc : ℚ)),
   ("C3_edit_time_ratio", (c3ratioOpt doc wc).getD 0),
   ("C4_clustered", if c4clustered doc then 1 else 0),
   ("D1_hedging_overuse", (d1count text : ℚ)),
   ("D2_formal_transitions", (d2count text : ℚ)),
   ("D3_passive_density", d3pctQ (passiveCount text) wc),
   ("D4_sentence_uniformity", if 0 < d4score sents then 1 else 0),
   ("E1_ai_words", ((e1words text).dedup.length : ℚ)),
   ("E2_contraction_avoidance", e2avoidQ text),
   ("E3_vocab_uniformity", if 0 < e3score doc.paragraphs then 1 else 0),
   ("F1_para_uniformity", if 0 < f1score doc.paragraphs then 1 else 0),
   ("F2_parallel_structures", ((f2go (f2patterns sents)).1 : ℚ)),
   ("F3_balanced_argument", if 0 < f3scoreQ text then 1 else 0),
   ("G1_lack_specifics", g1ratioQ text),
   ("G2_circular_definitions", (circularCount sents : ℚ)),
   ("G3_generic_statements", (g3count text : ℚ)),
   ("H1_font_inconsistent", (doc.fontInfo.clusters : ℚ)),
   ("H2_style_inconsistent", (h2count doc : ℚ)),
   ("H3_metadata_anomalies", (h3count doc wc : ℚ)),
   ("H5_clipboard_artifacts", (h5clusters text : ℚ)),
   ("I1_citation_anomalies", (i1clusters text : ℚ)),
   ("I2_generic_method", (i2count text : ℚ)),
   ("I3_results_no_data", if 0 < i3scoreQ doc.paragraphs then 1 else 0),
   ("J1_wholesale", (j1rewritten doc : ℚ)),
   ("J2_edit_granularity", j2ratioQ doc.trackChanges)]

/-- A marker's contribution: `min(marker.score, marker.max_contribution)`
(`analyze_document` line 145; the capped value is also written back into
the marker). -/
noncomputable def cappedScore (m : MarkerResult) : ℝ := min m.score (m.maxContribution : ℝ)

/-- Sum of the capped scores of one category's markers (every marker's
category is one of the ten letters, so the per-letter accumulation of the
source is this filtered sum). -/
noncomputable def categoryRawSum (ms : List MarkerResult) (cat : String) : ℝ :=
  ((ms.filter (fun m => m.category = cat)).map cappedScore).sum

/-- `category_scores[cat] = min(score, CATEGORY_CAPS[cat])`. -/
noncomputable def categoryScoreOf (ms : List MarkerResult) (cat : String) : ℝ :=
  min (categoryRawSum ms cat) ((categoryCap cat : ℚ) : ℝ)

noncomputable def weightedScore (ms : List MarkerResult) : ℝ :=
  (categoriesList.map (fun c => categoryScoreOf ms c * ((categoryWeight c : ℚ) : ℝ))).sum

def maxWeighted : ℚ := (categoriesList.map (fun c => categoryCap c * categoryWeight c)).sum

/-! ## The analysis result and the full pipeline -/

structure ScoringBreakdown where
  baseScore : ℝ
  compositeBonus : ℚ
  correlationBonus : ℚ
  anomalyBonus : ℚ
  humanReduction : ℚ
  bayesianAdjusted : ℝ
  contextualAdjusted : ℝ
  finalScore : ℝ

structure MetaInfo where
  analysisId : String
  timestamp : String
  version : String
  filename : String
  wordCount : ℕ
  paragraphCount : ℕ
  sentenceCount : ℕ
  documentType : String
  hasOriginal : Bool
  hasTrackChanges : Bool
  hasTimingData : Bool

/-- The two generated meta values (`str(uuid.uuid4())` and
`datetime.utcnow()`), supplied by the environment. -/
structure Env where
  uuid : String
  now : String

structure CategoryReport where
  catScore : ℝ
  markers : List MarkerResult

structure AnalysisResult where
  score : ℝ
  classification : String
  confidence : String
  categories : List (String × CategoryReport)
  compositePatterns : List CompositeHit
  humanIndicators : List HumanIndicator
  recommendation : String
  breakdown : ScoringBreakdown
  meta : MetaInfo

/-! The local variables of `analyze_document` (lines 103–317), stage by
stage in source order, as named definitions. -/

/-- Line 164: the weighted, normalised 0–100 base score. -/
noncomputable def base0 (doc : DocFeatures) (original : Option DocFeatures) : ℝ :=
  if maxWeighted ≠ 0 then
    weightedScore (markerResults doc original) / ((maxWeighted : ℚ) : ℝ) * 100
  else 0

/-- Line 168: composite bonus added, clamped at 100. -/
noncomputable def baseComposite (doc : DocFeatures) (original : Option DocFeatures) : ℝ :=
  min 100 (base0 doc original + (composite_bonus (markerCounts doc original) : ℝ))

/-- Lines 180–181: correlation bonus then anomaly score, each clamped. -/
noncomputable def baseCorrAnom (doc : DocFeatures) (original : Option DocFeatures) : ℝ :=
  min 100 (min 100 (baseComposite doc original +
    (correlation_bonus (markerCounts doc original) : ℝ)) +
    (detect_anomalies doc.text (sentencesOf doc.text) doc.paragraphs : ℝ))

/-- Lines 184–218: the fixed statistical-feature increments, followed by
the single clamp at 100. -/
noncomputable def baseStats (doc : DocFeatures) (original : Option DocFeatures) : ℝ :=
  let text := doc.text
  let sents := sentencesOf text
  let lex := calculate_lexical_diversity text
  let readb := calculate_readability_scores text sents
  let ngram := calculate_ngram_repetition text 3
  let burst := calculate_burstiness sents
  min 100 (baseCorrAnom doc original +
    (if lex.typeToken < 0.35 then 8 else 0) +
    (if lex.mtld < 50 then 12 else 0) +
    (if lex.hapaxLegomena < 0.25 then 6 else 0) +
    (if burst.bScore < 0.3 then 10 else 0) +
    (if burst.complexVar < 3 then 8 else 0) +
    (if 15 < ngram.repScore then 15 else if 8 < ngram.repScore then 8 else 0) +
    (if calculate_entropy text < 4 then 10 else 0) +
    (if 3 ≤ ([readb.fkg, readb.fog, readb.cli] : List ℚ).length ∧
        pstdevR [readb.fkg, readb.fog, readb.cli] < 2 then 7 else 0))

/-- Line 223: human-indicator reduction applied to the base score (before
the confidence/Bayesian blend). -/
noncomputable def baseHuman (doc : DocFeatures) (original : Option DocFeatures) : ℝ :=
  max 0 (baseStats doc original -
    (human_reduction doc.text (sentencesOf doc.text) (count_words doc.text) doc : ℝ))

/-- Line 225: markers with positive (capped) score. -/
noncomputable def markersFoundOf (doc : DocFeatures) (original : Option DocFeatures) : ℕ :=
  ((markerResults doc original).filter (fun m => (0 : ℝ) < cappedScore m)).length

/-- Lines 226–227. -/
noncomputable def confAdjusted (doc : DocFeatures) (original : Option DocFeatures) : ℝ :=
  (adjust_for_confidence (baseHuman doc original) (count_words doc.text)
    (markersFoundOf doc original)).1

noncomputable def confFactor (doc : DocFeatures) (original : Option DocFeatures) : ℚ :=
  (adjust_for_confidence (baseHuman doc original) (count_words doc.text)
    (markersFoundOf doc original)).2

/-- Lines 230–233. -/
noncomputable def bayesOf (doc : DocFeatures) (original : Option DocFeatures) : BayesResult :=
  bayesian_score_adjustment (confAdjusted doc original) (markerCounts doc original)
    (detect_document_type doc.text) (count_words doc.text)

/-- Lines 236–239. -/
noncomputable def ctxScore (doc : DocFeatures) (original : Option DocFeatures) : ℝ :=
  (calculate_contextual_adjustments (bayesOf doc original).adjScore
    (detect_document_type doc.text) (count_words doc.text)
    (markerCounts doc original)).1

/-- Lines 243–247: the final weighted blend. -/
noncomputable def blendedScore (doc : DocFeatures) (original : Option DocFeatures) : ℝ :=
  confAdjusted doc original * 0.4 + (bayesOf doc original).adjScore * 0.4 +
    ctxScore doc original * 0.2

/-- Lines 250–257. -/
noncomputable def enhancedConfidence (doc : DocFeatures) (original : Option DocFeatures) : ℚ :=
  confFactor doc original * 0.4 + (bayesOf doc original).conf * 0.3 +
    (if 5 ≤ markersFoundOf doc original then 1 else 0.7) * 0.3

/-- Lines 260–262: category-A markers with positive (capped) score. -/
noncomputable def highConfMarkersOf (doc : DocFeatures) (original : Option DocFeatures) : ℕ :=
  ((markerResults doc original).filter
    (fun m => m.category = "A" && decide ((0 : ℝ) < cappedScore m))).length

/-- Lines 263–264. -/
noncomputable def classificationOf (doc : DocFeatures) (original : Option DocFeatures) :
    String :=
  apply_composite_override
    (classify_risk (blendedScore doc original) (highConfMarkersOf doc original))
    (check_composite_patterns (markerCounts doc original))

/-- `analyze_document` (`aware_analyzer.py` lines 103–317).  The
`advanced_analysis` sub-report repeats the statistical feature values
verbatim and is not carried separately. -/
noncomputable def analyze_document (doc : DocFeatures) (original : Option DocFeatures)
    (env : Env) : AnalysisResult :=
  let ms := markerResults doc original
  { score := pyRoundR (blendedScore doc original) 1
    classification := classificationOf doc original
    confidence := confidence_level (enhancedConfidence doc original)
    categories := categoriesList.map (fun c =>
      (c, ⟨pyRoundR (categoryScoreOf ms c) 2,
           (ms.filter (fun m => m.category = c)).map
             (fun m => { m with score := cappedScore m })⟩))
    compositePatterns := check_composite_patterns (markerCounts doc original)
    humanIndicators :=
      detect_human_indicators doc.text (sentencesOf doc.text) (count_words doc.text) doc
    recommendation := recommendation_for_classification (classificationOf doc original)
    breakdown := ⟨pyRoundR (baseHuman doc original) 1,
                  composite_bonus (markerCounts doc original),
                  correlation_bonus (markerCounts doc original),
                  detect_anomalies doc.text (sentencesOf doc.text) doc.paragraphs,
                  human_reduction doc.text (sentencesOf doc.text) (count_words doc.text) doc,
                  pyRoundR (bayesOf doc original).adjScore 1,
                  pyRoundR (ctxScore doc original) 1,
                  pyRoundR (blendedScore doc original) 1⟩
    meta := ⟨env.uuid, env.now, "2.0_enhanced", doc.filename, count_words doc.text,
             doc.paragraphs.length, (sentencesOf doc.text).length,
             detect_document_type doc.text, original.isSome,
             decide (doc.trackChanges ≠ []),
             (match doc.metadata.editingMinutes with
              | some v => decide (v ≠ 0)
              | none => false)⟩ }

/-! ## Concrete documents used to settle the claims -/

def zwsp : String := String.mk [Char.ofNat 0x200B]

def envA : Env := ⟨"id-a", "2024-01-01T00:00:00Z"⟩

/-- The empty document: empty text, no paragraphs, all optional fields
absent. -/
def emptyDoc : DocFeatures := { text := "", paragraphs := [] }

/-! ### Evaluation of the pipeline on the empty document -/

theorem sentencesOf_empty : sentencesOf "" = [] := by decide

theorem d4score_nil : d4score [] = 0 := by
  simp [d4score, sentenceLens]

theorem e3score_nil : e3score [] = 0 := by
  simp [e3score, paraAvgLens]

theorem f1score_nil : f1score [] = 0 := by
  simp [f1score, paraLens]

/-- The all-zero marker-count dictionary the empty document produces. -/
def mcZero : MarkerCounts :=
  [("A1_em_dash", 0), ("A2_colon_semicolon", 0), ("A3_unicode_subscript", 0),
   ("A4_mixed_quotes", 0), ("B1_transitional", 0), ("B2_enumeration", 0),
   ("B3_spacing", 0), ("B4_line_breaks", 0), ("B5_repetitive", 0),
   ("C1_eoe", 0), ("C2_large_chunks", 0), ("C3_edit_time_ratio", 0),
   ("C4_clustered", 0), ("D1_hedging_overuse", 0), ("D2_formal_transitions", 0),
   ("D3_passive_density", 0), ("D4_sentence_uniformity", 0), ("E1_ai_words", 0),
   ("E2_contraction_avoidance", 0), ("E3_vocab_uniformity", 0),
   ("F1_para_uniformity", 0), ("F2_parallel_structures", 0),
   ("F3_balanced_argument", 0), ("G1_lack_specifics", 0),
   ("G2_circular_definitions", 0), ("G3_generic_statements", 0),
   ("H1_font_inconsistent", 0), ("H2_style_inconsistent", 0),
   ("H3_metadata_anomalies", 0), ("H5_clipboard_artifacts", 0),
   ("I1_citation_anomalies", 0), ("I2_generic_method", 0),
   ("I3_results_no_data", 0), ("J1_wholesale", 0), ("J2_edit_granularity", 0)]

theorem mc_emptyDoc : markerCounts emptyDoc none = mcZero := by
  simp only [markerCounts, emptyDoc, sentencesOf_empty, d4score_nil, e3score_nil,
    f1score_nil, eoeOf, mcZero]
  norm_num
  decide

/-- The markers of the empty document: every count and raw score is 0. -/
def msZero : List MarkerResult :=
  [⟨"A1", "A", 0, 0, 150⟩, ⟨"A2", "A", 0, 0, 100⟩, ⟨"A3", "A", 0, 0, 150⟩,
   ⟨"A4", "A", 0, 0, 50⟩, ⟨"B1", "B", 0, 0, 80⟩, ⟨"B2", "B", 0, 0, 60⟩,
   ⟨"B3", "B", 0, 0, 50⟩, ⟨"B4", "B", 0, 0, 30⟩, ⟨"B5", "B", 0, 0, 50⟩,
   ⟨"C1", "C", 0, 0, 80⟩, ⟨"C2", "C", 0, 0, 100⟩, ⟨"C3", "C", 0, 0, 30⟩,
   ⟨"C4", "C", 0, 0, 15⟩, ⟨"D1", "D", 0, 0, 40⟩, ⟨"D2", "D", 0, 0, 30⟩,
   ⟨"D3", "D", 0, 0, 25⟩, ⟨"D4", "D", 0, 0, 30⟩, ⟨"E1", "E", 0, 0, 70⟩,
   ⟨"E2", "E", 0, 0, 25⟩, ⟨"E3", "E", 0, 0, 20⟩, ⟨"F1", "F", 0, 0, 25⟩,
   ⟨"F2", "F", 0, 0, 30⟩, ⟨"F3", "F", 0, 0, 15⟩, ⟨"G1", "G", 0, 0, 25⟩,
   ⟨"G2", "G", 0, 0, 30⟩, ⟨"G3", "G", 0, 0, 30⟩, ⟨"H1", "H", 0, 0, 40⟩,
   ⟨"H2", "H", 0, 0, 25⟩, ⟨"H3", "H", 0, 0, 25⟩, ⟨"H5", "H", 0, 0, 40⟩,
   ⟨"I1", "I", 0, 0, 45⟩, ⟨"I2", "I", 0, 0, 20⟩, ⟨"I3", "I", 0, 0, 15⟩,
   ⟨"J1", "J", 0, 0, 35⟩, ⟨"J2", "J", 0, 0, 25⟩]

theorem ms_emptyDoc : markerResults emptyDoc none = msZero := by
  simp only [markerResults, emptyDoc, sentencesOf_empty, detect_category_a,
    detect_category_b, detect_category_c, detect_category_d, detect_category_e,
    detect_category_f, detect_category_g, detect_category_h, detect_category_i,
    detect_category_j, d4score_nil, e3score_nil, f1score_nil, eoeOf, msZero,
    List.cons_append, List.nil_append, List.cons.injEq, MarkerResult.mk.injEq,
    Rat.cast_eq_zero]
  norm_num
  decide

theorem check_mcZero : check_composite_patterns mcZero = [] := by decide

theorem compositeBonus_mcZero : composite_bonus mcZero = 0 := by
  rw [composite_bonus, check_mcZero]; rfl

theorem corr_mcZero : correlation_bonus mcZero = 0 := by
  have h : ((((strongPatterns ++ moderatePatterns).filter (corrPatternMet mcZero)).map
      (fun p => p.bonus)).sum : ℚ) = 0 := by decide
  unfold correlation_bonus
  rw [h]
  norm_num

theorem lex_empty : calculate_lexical_diversity "" = ⟨0, 0, 0, 0, 0⟩ := by decide

theorem ngram_empty : calculate_ngram_repetition "" 3 = ⟨0, 0⟩ := by decide

theorem read_empty : calculate_readability_scores "" [] = ⟨0, 0, 0, 0, 0, 0⟩ := rfl

theorem burst_nil : calculate_burstiness [] = ⟨0, 0, 0⟩ := rfl

theorem ent_empty : calculate_entropy "" = 0 := rfl

theorem wordsOf_empty : wordsOf "" = [] := rfl

theorem count_words_empty : count_words "" = 0 := rfl

theorem anom_empty : detect_anomalies "" [] [] = 0 := by
  simp [detect_anomalies, wordsOf_empty]

theorem weighted_msZero : weightedScore msZero = 0 := by
  simp +decide [weightedScore, categoriesList, categoryScoreOf, categoryRawSum,
    msZero, cappedScore, categoryCap]

theorem dtype_empty : detect_document_type "" = "general" := by decide

theorem emptyDoc_text : emptyDoc.text = "" := rfl

theorem emptyDoc_paras : emptyDoc.paragraphs = [] := rfl

theorem base0_empty : base0 emptyDoc none = 0 := by
  have hmw : maxWeighted ≠ 0 := by decide
  rw [base0, if_pos hmw, ms_emptyDoc, weighted_msZero]
  norm_num

theorem baseComposite_empty : baseComposite emptyDoc none = 0 := by
  rw [baseComposite, base0_empty, mc_emptyDoc, compositeBonus_mcZero]
  norm_num

theorem baseCorrAnom_empty : baseCorrAnom emptyDoc none = 0 := by
  rw [baseCorrAnom]
  simp only [emptyDoc_text, emptyDoc_paras, sentencesOf_empty]
  rw [baseComposite_empty, mc_emptyDoc, corr_mcZero, anom_empty]
  norm_num

theorem pvar_three_zero : pvarQ [0, 0, 0] = 0 := by decide

theorem pstdev_three_zero : pstdevR [0, 0, 0] = 0 := by
  rw [pstdevR, pvar_three_zero]
  simp

theorem baseStats_empty : baseStats emptyDoc none = 61 := by
  rw [baseStats]
  simp only [emptyDoc_text, sentencesOf_empty]
  rw [baseCorrAnom_empty]
  simp only [lex_empty, read_empty, ngram_empty, burst_nil, ent_empty]
  norm_num [pstdev_three_zero]

theorem hums_empty : detect_human_indicators "" [] 0 emptyDoc = [] := by
  simp +decide [detect_human_indicators, emptyDoc, sentenceLens, detailQ]

theorem baseHuman_empty : baseHuman emptyDoc none = 61 := by
  rw [baseHuman]
  simp only [emptyDoc_text, sentencesOf_empty, count_words_empty]
  rw [baseStats_empty, human_reduction, hums_empty]
  norm_num

theorem markersFound_empty : markersFoundOf emptyDoc none = 0 := by
  rw [markersFoundOf, ms_emptyDoc]
  norm_num [msZero, cappedScore, List.filter]

theorem pyRoundR_eval {x : ℝ} {q : ℚ} (d : ℕ) (hx : x = (q : ℝ)) {r : ℚ}
    (hq : pyRound q d = r) : pyRoundR x d = (r : ℝ) := by
  rw [hx, pyRoundR_ratCast, hq]

theorem confAdjusted_empty : confAdjusted emptyDoc none = ((171/5 : ℚ) : ℝ) := by
  rw [confAdjusted]
  simp only [emptyDoc_text, count_words_empty]
  rw [markersFound_empty, baseHuman_empty]
  simp only [adjust_for_confidence]
  rw [if_pos (show (0:ℕ) < 500 by norm_num),
      if_pos (show (0:ℕ) < 3 ∧ (50:ℝ) < 61 from ⟨by norm_num, by norm_num⟩)]
  refine pyRoundR_eval 1 ?_ (show pyRound (854/25) 1 = 171/5 by decide)
  push_cast
  norm_num

/-- Evaluation of the Bayesian step for a "general" document with no
positive category-A marker-count entries. -/
theorem bayes_general_adj (x : ℚ) (mc : MarkerCounts) (wc : ℕ)
    (hA : highConfidenceACount mc = 0) :
    (bayesian_score_adjustment ((x : ℚ) : ℝ) mc "general" wc).adjScore
      = ((pyRound (min 100 (x * (60/109))) 2 : ℚ) : ℝ) := by
  rw [bayesian_score_adjustment]
  simp only [hA, likelihoodPair]
  norm_num
  refine pyRoundR_eval 2 ?_ rfl
  push_cast
  norm_num

theorem bayes_conf_small (x : ℝ) (mc : MarkerCounts) (dt : String) (wc : ℕ)
    (hwc : wc < 300) :
    (bayesian_score_adjustment x mc dt wc).conf = 3/5 := by
  rw [bayesian_score_adjustment]
  simp only [if_pos hwc]
  norm_num

/-- Evaluation of the contextual step for a short "general" document. -/
theorem ctx_general (b : ℚ) (wc : ℕ) (mc : MarkerCounts) (hwc : wc < 300)
    (h0 : 0 ≤ b - 5) (h100 : b - 5 ≤ 100) :
    (calculate_contextual_adjustments ((b : ℚ) : ℝ) "general" wc mc).1
      = ((pyRound (b - 5) 2 : ℚ) : ℝ) := by
  rw [calculate_contextual_adjustments]
  simp only []
  rw [if_neg (show ¬("general" = "academic") by decide), if_pos hwc]
  norm_num
  refine pyRoundR_eval 2 ?_ rfl
  have e : ((b : ℝ) + -5) = (((b - 5 : ℚ)) : ℝ) := by push_cast; ring
  rw [e, min_eq_right (by exact_mod_cast h100), max_eq_right (by exact_mod_cast h0)]

theorem bayes_empty_adj : (bayesOf emptyDoc none).adjScore = ((1883/100 : ℚ) : ℝ) := by
  rw [bayesOf]
  simp only [emptyDoc_text, count_words_empty, dtype_empty]
  rw [mc_emptyDoc, confAdjusted_empty,
      bayes_general_adj (171/5) mcZero 0 (by decide)]
  rw [show min (100:ℚ) ((171:ℚ)/5 * (60/109)) = 2052/109 by
        rw [show ((171:ℚ)/5 * (60/109)) = 2052/109 by norm_num]
        exact min_eq_right (by norm_num)]
  rw [show pyRound ((2052:ℚ)/109) 2 = 1883/100 by decide]

theorem ctx_empty : ctxScore emptyDoc none = ((1383/100 : ℚ) : ℝ) := by
  rw [ctxScore]
  simp only [emptyDoc_text, count_words_empty, dtype_empty]
  rw [mc_emptyDoc, bayes_empty_adj,
      ctx_general (1883/100) 0 mcZero (by norm_num) (by norm_num) (by norm_num)]
  rw [show pyRound ((1883:ℚ)/100 - 5) 2 = 1383/100 by decide]

theorem blended_empty : blendedScore emptyDoc none = ((11989/500 : ℚ) : ℝ) := by
  rw [blendedScore, confAdjusted_empty, bayes_empty_adj, ctx_empty]
  push_cast
  norm_num

theorem hcm_empty : highConfMarkersOf emptyDoc none = 0 := by
  rw [highConfMarkersOf, ms_emptyDoc]
  norm_num [msZero, cappedScore, List.filter]

theorem classification_empty : classificationOf emptyDoc none = "LOW" := by
  rw [classificationOf, mc_emptyDoc, check_mcZero, blended_empty, hcm_empty,
      classify_risk, bandClassification]
  rw [if_neg (show ¬(((11989/500 : ℚ) : ℝ) ≤ 15) by push_cast; norm_num),
      if_pos (show (((11989/500 : ℚ) : ℝ) ≤ 35) by push_cast; norm_num)]
  norm_num [apply_composite_override]

theorem rawSum_msZero (c : String) : categoryRawSum msZero c = 0 := by
  refine List.sum_eq_zero ?_
  intro x hx
  obtain ⟨m, hm, rfl⟩ := List.mem_map.mp hx
  have hm2 := List.mem_of_mem_filter hm
  fin_cases hm2 <;> norm_num [cappedScore]

theorem catScore_msZero (c : String) : categoryScoreOf msZero c = 0 := by
  rw [categoryScoreOf, rawSum_msZero]
  refine min_eq_left ?_
  have h : (0:ℚ) ≤ categoryCap c := by rw [categoryCap]; split_ifs <;> norm_num
  exact_mod_cast h

theorem pyRoundR_zero2 : pyRoundR 0 2 = 0 := by
  have h := pyRoundR_eval 2 (show (0:ℝ) = ((0:ℚ) : ℝ) by norm_num)
    (show pyRound 0 2 = 0 by decide)
  simpa using h

theorem catScores_empty :
    (analyze_document emptyDoc none envA).categories.map (fun p => p.2.catScore)
      = List.replicate 10 0 := by
  simp only [analyze_document, ms_emptyDoc, categoriesList, List.map_cons, List.map_nil]
  simp [catScore_msZero, pyRoundR_zero2, List.replicate]

theorem breakdownCB_empty :
    (analyze_document emptyDoc none envA).breakdown.compositeBonus = 0 := by
  simp only [analyze_document]
  rw [mc_emptyDoc, compositeBonus_mcZero]

theorem score_empty : (analyze_document emptyDoc none envA).score = ((24 : ℚ) : ℝ) := by
  simp only [analyze_document]
  rw [blended_empty]
  exact pyRoundR_eval 1 rfl (by decide)

theorem classification_result_empty :
    (analyze_document emptyDoc none envA).classification = "LOW" := by
  simp only [analyze_document]
  exact classification_empty

/-- C2: counterexample to the original claim.  On the empty document
(text `""`, no paragraphs, every optional field absent) the pipeline does
NOT return final score 0.0 with classification MINIMAL: the statistical
features of empty text (zero lexical diversity, zero burstiness, zero
entropy, flat readability) add +61 to the base, and after the
confidence/Bayesian/contextual blend the final score is 24.0 with
classification LOW. -/
theorem C2_counterexample :
    ¬((analyze_document emptyDoc none envA).score = 0 ∧
      (analyze_document emptyDoc none envA).classification = "MINIMAL") := by
  intro h
  have h1 := h.1
  rw [score_empty] at h1
  norm_num at h1

/-- C2 (amended): for the empty text input every reported category score
is 0 and the composite bonus is 0, but the final score is 24.0 (not 0.0)
and the classification is LOW (not MINIMAL): the statistical-feature
increments alone raise the base to 61, and the blended score 23.978
rounds to 24.0. -/
theorem C2_empty_document :
    (analyze_document emptyDoc none envA).categories.map (fun p => p.2.catScore)
        = List.replicate 10 0 ∧
    (analyze_document emptyDoc none envA).breakdown.compositeBonus = 0 ∧
    (analyze_document emptyDoc none envA).score = ((24 : ℚ) : ℝ) ∧
    (analyze_document emptyDoc none envA).classification = "LOW" :=
  ⟨catScores_empty, breakdownCB_empty, score_empty, classification_result_empty⟩

/-- The A1 tier function exactly as the spec words it: 0 when n < 3,
(n - 2) * 15 when 3 <= n <= 5, and 45 + (n - 5) * 20 when n > 5.  Compared
against the source tier function `a1scoreQ` (which tests `n <= 2`). -/
def a1tierSpec (n : ℕ) : ℚ :=
  if n < 3 then 0 else if n ≤ 5 then ((n : ℚ) - 2) * 15 else 45 + ((n : ℚ) - 5) * 20

theorem a1score_eq_tierSpec (n : ℕ) : a1scoreQ n = a1tierSpec n := by
  rw [a1scoreQ, a1tierSpec]
  rcases Nat.lt_or_ge n 3 with h3 | h3
  · rw [if_pos (show n ≤ 2 by omega), if_pos h3]
  · rw [if_neg (show ¬ n ≤ 2 by omega), if_neg (show ¬ n < 3 by omega)]

def dash4 : String := String.mk (List.replicate 4 emDash)

def dash7 : String := String.mk (List.replicate 7 emDash)

/-- C5: for every input text the A1 marker reported by `detect_category_a`
carries the em-dash occurrence count and the tiered raw score 0 for n < 3,
(n-2)*15 for 3 <= n <= 5, and 45 + (n-5)*20 for n > 5; in particular texts
of 0, 4 and 7 em-dashes score 0, 30 and 85. -/
theorem C5_a1_em_dash_tiers :
    (∀ (text : String) (wc : ℕ) (paras : List String),
      (detect_category_a text wc paras).head?.map
          (fun m => (m.markerId, m.count, m.score))
        = some ("A1", emDashCount text, ((a1tierSpec (emDashCount text) : ℚ) : ℝ))) ∧
    emDashCount "" = 0 ∧ a1tierSpec 0 = 0 ∧
    emDashCount dash4 = 4 ∧ a1tierSpec 4 = 30 ∧
    emDashCount dash7 = 7 ∧ a1tierSpec 7 = 85 := by
  refine ⟨fun text wc paras => ?_, by decide, by decide, by decide, by decide,
    by decide, by decide⟩
  simp [detect_category_a, a1score_eq_tierSpec]

theorem rawSum_le_maxSum (ms : List MarkerResult) (c : String) :
    categoryRawSum ms c ≤ (((ms.filter (fun m => m.category = c)).map
      (fun m => ((m.maxContribution : ℚ) : ℝ))).sum) :=
  List.sum_le_sum (fun m _ => min_le_right _ _)

/-- C6: for every document the internal per-category score (the value the
weighting stage consumes, and that the report rounds to two decimals)
equals the plain sum of the category marker scores after each has been
clamped to its max contribution, and that sum never exceeds the fixed
category cap A=450, B=270, C=225, D=125, E=155, F=100, G=125, H=180,
I=120, J=105 (each category total of max contributions is at most its
cap, so the outer clamp never engages). -/
theorem C6_category_caps (doc : DocFeatures) (original : Option DocFeatures)
    (c : String) (hc : c ∈ categoriesList) :
    categoryScoreOf (markerResults doc original) c
        = categoryRawSum (markerResults doc original) c ∧
    categoryRawSum (markerResults doc original) c ≤ ((categoryCap c : ℚ) : ℝ) ∧
    categoryCap "A" = 450 ∧ categoryCap "B" = 270 ∧ categoryCap "C" = 225 ∧
    categoryCap "D" = 125 ∧ categoryCap "E" = 155 ∧ categoryCap "F" = 100 ∧
    categoryCap "G" = 125 ∧ categoryCap "H" = 180 ∧ categoryCap "I" = 120 ∧
    categoryCap "J" = 105 := by
  have hle : categoryRawSum (markerResults doc original) c
      ≤ ((categoryCap c : ℚ) : ℝ) := by
    refine le_trans (rawSum_le_maxSum _ _) ?_
    fin_cases hc <;>
      (simp [markerResults, detect_category_a, detect_category_b, detect_category_c,
         detect_category_d, detect_category_e, detect_category_f, detect_category_g,
         detect_category_h, detect_category_i, detect_category_j, categoryCap];
       push_cast; norm_num)
  exact ⟨min_eq_left hle, hle, by decide, by decide, by decide, by decide, by decide,
    by decide, by decide, by decide, by decide, by decide⟩

/-- C6 witness: the theorem applied to the empty document at category A. -/
theorem C6_category_caps_witness :
    categoryScoreOf (markerResults emptyDoc none) "A"
        = categoryRawSum (markerResults emptyDoc none) "A" ∧
    categoryRawSum (markerResults emptyDoc none) "A" ≤ ((categoryCap "A" : ℚ) : ℝ) ∧
    categoryCap "A" = 450 ∧ categoryCap "B" = 270 ∧ categoryCap "C" = 225 ∧
    categoryCap "D" = 125 ∧ categoryCap "E" = 155 ∧ categoryCap "F" = 100 ∧
    categoryCap "G" = 125 ∧ categoryCap "H" = 180 ∧ categoryCap "I" = 120 ∧
    categoryCap "J" = 105 :=
  C6_category_caps emptyDoc none "A" (by decide)

/-- The score bands exactly as the spec words them (≤15 MINIMAL, ≤35 LOW,
≤55 MODERATE, ≤75 HIGH, else CRITICAL), to be compared with the source
band function. -/
noncomputable def bandSpec (score : ℝ) : String :=
  if score ≤ 15 then "MINIMAL"
  else if score ≤ 35 then "LOW"
  else if score ≤ 55 then "MODERATE"
  else if score ≤ 75 then "HIGH"
  else "CRITICAL"

theorem band_mem (s : ℝ) : bandClassification s ∈ riskOrder := by
  rw [bandClassification]
  split_ifs <;> decide

theorem classify_mem (s : ℝ) (n : ℕ) : classify_risk s n ∈ riskOrder := by
  simp only [classify_risk]
  split_ifs <;> first | decide | exact band_mem s

theorem rank_le_four (c : String) (h : c ∈ riskOrder) : rankOf c ≤ 4 := by
  fin_cases h <;> decide

theorem overfold_ge (comps : List CompositeHit) (init : ℕ) :
    init ≤ comps.foldl (fun cur comp =>
      if comp.autoClassify ∈ riskOrder then max cur (rankOf comp.autoClassify)
      else cur) init := by
  induction comps generalizing init with
  | nil => exact le_refl _
  | cons c cs ih =>
    simp only [List.foldl_cons]
    refine le_trans ?_ (ih _)
    split_ifs with h
    · exact le_max_left _ _
    · exact le_refl _

theorem overfold_le (comps : List CompositeHit) (init : ℕ) (h : init ≤ 4) :
    comps.foldl (fun cur comp =>
      if comp.autoClassify ∈ riskOrder then max cur (rankOf comp.autoClassify)
      else cur) init ≤ 4 := by
  induction comps generalizing init with
  | nil => simpa using h
  | cons c cs ih =>
    simp only [List.foldl_cons]
    refine ih _ ?_
    split_ifs with hm
    · exact max_le h (rank_le_four _ hm)
    · exact h

theorem override_up (cls : String) (hcls : cls ∈ riskOrder)
    (comps : List CompositeHit) :
    rankOf cls ≤ rankOf (apply_composite_override cls comps) := by
  rw [apply_composite_override]
  split_ifs with he
  · exact le_refl _
  · obtain ⟨k, hk, h1, h2⟩ : ∃ k, comps.foldl (fun cur comp =>
        if comp.autoClassify ∈ riskOrder then max cur (rankOf comp.autoClassify)
        else cur) (rankOf cls) = k ∧ rankOf cls ≤ k ∧ k ≤ 4 :=
      ⟨_, rfl, overfold_ge _ _, overfold_le _ _ (rank_le_four cls hcls)⟩
    rw [hk]
    interval_cases k <;> exact le_trans h1 (by decide)

theorem classify_up (s : ℝ) (n : ℕ) :
    rankOf (bandClassification s) ≤ rankOf (classify_risk s n) := by
  simp only [classify_risk]
  have h := band_mem s
  revert h
  generalize bandClassification s = c
  intro h
  fin_cases h <;> split_ifs <;> first | decide | simp_all

/-- C7: the band classification follows the spec thresholds (≤15 MINIMAL,
≤35 LOW, ≤55 MODERATE, ≤75 HIGH, else CRITICAL), and both the
marker-count upgrade step of `classify_risk` and the composite override
only ever move the classification upward in the ordinal order
MINIMAL < LOW < MODERATE < HIGH < CRITICAL, never downward. -/
theorem C7_classification_upward (s : ℝ) (n : ℕ) (comps : List CompositeHit) :
    bandClassification s = bandSpec s ∧
    rankOf (bandClassification s) ≤ rankOf (classify_risk s n) ∧
    rankOf (classify_risk s n)
      ≤ rankOf (apply_composite_override (classify_risk s n) comps) :=
  ⟨rfl, classify_up s n, override_up _ (classify_mem s n) comps⟩

theorem mcGet_j4 (doc : DocFeatures) (original : Option DocFeatures) :
    mcGet (markerCounts doc original) "J4_time_gap" = 0 := by
  simp [markerCounts, mcGet, List.find?]

theorem eval_j4_false (doc : DocFeatures) (original : Option DocFeatures) :
    evaluate_condition "J4_time_gap" (markerCounts doc original) = false := by
  rw [evaluate_condition]
  simp [splitOnChar, splitOnCharGo, mcGet_j4 doc original]

/-- C10: the composite pattern SMOKING_GUN_1 can never trigger — its
required condition "J4_time_gap" is a truthy check on a marker key that
no detector ever writes into the marker-count dictionary, so the lookup
always yields 0 and the condition is always false. -/
theorem C10_smoking_gun_1_dead (doc : DocFeatures) (original : Option DocFeatures) :
    (check_composite_patterns (markerCounts doc original)).all
      (fun h => h.pid ≠ "SMOKING_GUN_1") = true := by
  rw [check_composite_patterns, List.all_eq_true]
  intro h hm
  simp only [List.mem_map] at hm
  obtain ⟨p, hp, rfl⟩ := hm
  have hmem := List.mem_filter.mp hp
  have hp1 : p ∈ composite_catalog := hmem.1
  have hall := hmem.2
  fin_cases hp1 <;> simp_all [eval_j4_false doc original]

/-! ### C3: the likelihood pair and the A-marker count -/

/-- The count the SPEC describes: category-A markers whose computed
(raw) score is nonzero, read off the marker list itself. -/
noncomputable def aScoreCount (ms : List MarkerResult) : ℕ :=
  (ms.filter (fun m => m.category = "A" && decide (m.score ≠ 0))).length

def xText : String := String.mk ['x', emDash, 'y']

/-- A one-sentence document holding a single em-dash. -/
def xDoc : DocFeatures := { text := xText, paragraphs := [] }

theorem sentencesOf_x : sentencesOf xText = [xText] := by decide

theorem d4score_x : d4score [xText] = 0 := by
  rw [d4score, show sentenceLens [xText] = [2] from by decide]
  norm_num

/-- The marker counts of `xDoc`: a single em-dash, everything else 0. -/
def mcX : MarkerCounts :=
  [("A1_em_dash", 1), ("A2_colon_semicolon", 0), ("A3_unicode_subscript", 0),
   ("A4_mixed_quotes", 0), ("B1_transitional", 0), ("B2_enumeration", 0),
   ("B3_spacing", 0), ("B4_line_breaks", 0), ("B5_repetitive", 0),
   ("C1_eoe", 0), ("C2_large_chunks", 0), ("C3_edit_time_ratio", 0),
   ("C4_clustered", 0), ("D1_hedging_overuse", 0), ("D2_formal_transitions", 0),
   ("D3_passive_density", 0), ("D4_sentence_uniformity", 0), ("E1_ai_words", 0),
   ("E2_contraction_avoidance", 0), ("E3_vocab_uniformity", 0),
   ("F1_para_uniformity", 0), ("F2_parallel_structures", 0),
   ("F3_balanced_argument", 0), ("G1_lack_specifics", 0),
   ("G2_circular_definitions", 0), ("G3_generic_statements", 0),
   ("H1_font_inconsistent", 0), ("H2_style_inconsistent", 0),
   ("H3_metadata_anomalies", 0), ("H5_clipboard_artifacts", 0),
   ("I1_citation_anomalies", 0), ("I2_generic_method", 0),
   ("I3_results_no_data", 0), ("J1_wholesale", 0), ("J2_edit_granularity", 0)]

theorem mc_xDoc : markerCounts xDoc none = mcX := by
  simp only [markerCounts, xDoc, sentencesOf_x, d4score_x, e3score_nil,
    f1score_nil, eoeOf, mcX]
  norm_num
  decide

/-- The markers of `xDoc`: the A1 count is 1, every raw score is 0 (one
em-dash is below the three-occurrence tier). -/
def msX : List MarkerResult :=
  [⟨"A1", "A", 1, 0, 150⟩, ⟨"A2", "A", 0, 0, 100⟩, ⟨"A3", "A", 0, 0, 150⟩,
   ⟨"A4", "A", 0, 0, 50⟩, ⟨"B1", "B", 0, 0, 80⟩, ⟨"B2", "B", 0, 0, 60⟩,
   ⟨"B3", "B", 0, 0, 50⟩, ⟨"B4", "B", 0, 0, 30⟩, ⟨"B5", "B", 0, 0, 50⟩,
   ⟨"C1", "C", 0, 0, 80⟩, ⟨"C2", "C", 0, 0, 100⟩, ⟨"C3", "C", 0, 0, 30⟩,
   ⟨"C4", "C", 0, 0, 15⟩, ⟨"D1", "D", 0, 0, 40⟩, ⟨"D2", "D", 0, 0, 30⟩,
   ⟨"D3", "D", 0, 0, 25⟩, ⟨"D4", "D", 0, 0, 30⟩, ⟨"E1", "E", 0, 0, 70⟩,
   ⟨"E2", "E", 0, 0, 25⟩, ⟨"E3", "E", 0, 0, 20⟩, ⟨"F1", "F", 0, 0, 25⟩,
   ⟨"F2", "F", 0, 0, 30⟩, ⟨"F3", "F", 0, 0, 15⟩, ⟨"G1", "G", 0, 0, 25⟩,
   ⟨"G2", "G", 0, 0, 30⟩, ⟨"G3", "G", 0, 0, 30⟩, ⟨"H1", "H", 0, 0, 40⟩,
   ⟨"H2", "H", 0, 0, 25⟩, ⟨"H3", "H", 0, 0, 25⟩, ⟨"H5", "H", 0, 0, 40⟩,
   ⟨"I1", "I", 0, 0, 45⟩, ⟨"I2", "I", 0, 0, 20⟩, ⟨"I3", "I", 0, 0, 15⟩,
   ⟨"J1", "J", 0, 0, 35⟩, ⟨"J2", "J", 0, 0, 25⟩]

theorem ms_xDoc : markerResults xDoc none = msX := by
  simp only [markerResults, xDoc, sentencesOf_x, detect_category_a,
    detect_category_b, detect_category_c, detect_category_d, detect_category_e,
    detect_category_f, detect_category_g, detect_category_h, detect_category_i,
    detect_category_j, d4score_x, e3score_nil, f1score_nil, eoeOf, msX,
    List.cons_append, List.nil_append, List.cons.injEq, MarkerResult.mk.injEq,
    Rat.cast_eq_zero]
  norm_num
  decide

theorem aScoreCount_xDoc : aScoreCount (markerResults xDoc none) = 0 := by
  rw [aScoreCount, ms_xDoc]
  norm_num [msX, List.filter]

/-- C3: counterexample.  On a document holding exactly one em-dash every
category-A marker score is 0 (so by the claim the pair should be the
default (0.30, 0.65)), yet the Bayesian step reads the RAW COUNTS in
`marker_counts` (key starts with "A" and count positive), finds one
positive A entry, and uses (0.60, 0.35). -/
theorem C3_counterexample :
    aScoreCount (markerResults xDoc none) = 0 ∧
    likelihoodPair 0 = (0.30, 0.65) ∧
    highConfidenceACount (markerCounts xDoc none) = 1 ∧
    (bayesOf xDoc none).lhAI = 0.60 ∧ (bayesOf xDoc none).lhHuman = 0.35 := by
  refine ⟨aScoreCount_xDoc, by decide, ?_, ?_, ?_⟩
  · rw [mc_xDoc]; decide
  · simp only [bayesOf, bayesian_score_adjustment]
    rw [mc_xDoc]
    decide
  · simp only [bayesOf, bayesian_score_adjustment]
    rw [mc_xDoc]
    decide

/-- C3 (amended): the likelihood pair is the step function of the number
of `marker_counts` ENTRIES whose key starts with "A" and whose raw count
is positive (not of the A markers with nonzero score): ≥5 → (0.95, 0.05),
≥3 → (0.80, 0.15), ≥1 → (0.60, 0.35), else (0.30, 0.65). -/
theorem C3_likelihood_amended (baseS : ℝ) (mc : MarkerCounts) (dt : String) (wc : ℕ) :
    ((bayesian_score_adjustment baseS mc dt wc).lhAI,
     (bayesian_score_adjustment baseS mc dt wc).lhHuman)
      = likelihoodPair (highConfidenceACount mc) ∧
    likelihoodPair 0 = (0.30, 0.65) ∧ likelihoodPair 1 = (0.60, 0.35) ∧
    likelihoodPair 2 = (0.60, 0.35) ∧ likelihoodPair 3 = (0.80, 0.15) ∧
    likelihoodPair 4 = (0.80, 0.15) ∧ likelihoodPair 5 = (0.95, 0.05) ∧
    likelihoodPair 6 = (0.95, 0.05) := by
  refine ⟨rfl, by decide, by decide, by decide, by decide, by decide, by decide,
    by decide⟩

/-- C8: the pipeline is a pure function of the document features: two runs
with different generated identifier/timestamp environments agree on every
output field; only `meta.analysis_id` and `meta.timestamp` carry the
generated values. -/
theorem C8_determinism (doc : DocFeatures) (original : Option DocFeatures)
    (e1 e2 : Env) :
    (analyze_document doc original e1).score = (analyze_document doc original e2).score ∧
    (analyze_document doc original e1).classification
      = (analyze_document doc original e2).classification ∧
    (analyze_document doc original e1).confidence
      = (analyze_document doc original e2).confidence ∧
    (analyze_document doc original e1).categories
      = (analyze_document doc original e2).categories ∧
    (analyze_document doc original e1).compositePatterns
      = (analyze_document doc original e2).compositePatterns ∧
    (analyze_document doc original e1).humanIndicators
      = (analyze_document doc original e2).humanIndicators ∧
    (analyze_document doc original e1).recommendation
      = (analyze_document doc original e2).recommendation ∧
    (analyze_document doc original e1).breakdown
      = (analyze_document doc original e2).breakdown ∧
    { (analyze_document doc original e1).meta with analysisId := "", timestamp := "" }
      = { (analyze_document doc original e2).meta with analysisId := "", timestamp := "" } ∧
    (analyze_document doc original e1).meta.analysisId = e1.uuid ∧
    (analyze_document doc original e1).meta.timestamp = e1.now :=
  ⟨rfl, rfl, rfl, rfl, rfl, rfl, rfl, rfl, rfl, rfl, rfl⟩

/-- A document carrying only the two mandatory fields; every optional
field keeps its absent default. -/
def bareDoc (text : String) (paras : List String) : DocFeatures :=
  { text := text, paragraphs := paras }

/-- C9: the pipeline is total on well-formed inputs and returns a complete
result.  With every optional field absent the report still lists all ten
categories and all 35 markers, and the detectors that read the absent
fields (category C, category J, and the font/style/metadata markers
H1-H3) produce zero scores; the guarded ratio computations substitute 0
at a zero denominator. -/
theorem C9_safety (text : String) (paras : List String) (env : Env)
    (o : DocFeatures) (n : ℕ) :
    (analyze_document (bareDoc text paras) none env).categories.map Prod.fst
        = categoriesList ∧
    (markerResults (bareDoc text paras) none).length = 35 ∧
    ((markerResults (bareDoc text paras) none).filter
        (fun m => m.category = "C" || m.category = "J")).map (fun m => m.score)
      = [0, 0, 0, 0, 0, 0] ∧
    ((markerResults (bareDoc text paras) none).filter
        (fun m => m.markerId = "H1" || m.markerId = "H2" || m.markerId = "H3")).map
        (fun m => m.score) = [0, 0, 0] ∧
    d3pctQ n 0 = 0 ∧ a2scoreQ n 0 = 0 ∧ eoeOf (bareDoc text paras) (some o) 0 = 0 ∧
    j2ratioQ [] = 0 ∧ qMean [] = 0 := by
  refine ⟨by simp [analyze_document, Function.comp_def], ?_, ?_, ?_, by simp [d3pctQ],
    by simp [a2scoreQ], by simp [eoeOf], by decide, by decide⟩
  · simp [markerResults, detect_category_a, detect_category_b, detect_category_c,
      detect_category_d, detect_category_e, detect_category_f, detect_category_g,
      detect_category_h, detect_category_i, detect_category_j]
  · simp [markerResults, detect_category_a, detect_category_b, detect_category_c,
      detect_category_d, detect_category_e, detect_category_f, detect_category_g,
      detect_category_h, detect_category_i, detect_category_j, bareDoc, eoeOf,
      c1scoreQ, c2largeChunks, c3ratioOpt, c3scoreQ, c4clustered, j1rewritten,
      j1scoreQ, j1ratioQ, j2data, j2ratioQ, j2scoreQ, List.filter]
    norm_num
  · simp [markerResults, detect_category_a, detect_category_b, detect_category_c,
      detect_category_d, detect_category_e, detect_category_f, detect_category_g,
      detect_category_h, detect_category_i, detect_category_j, bareDoc, h2count,
      h3scoreQ, h3lowRevision, h3fastModify, List.filter]

/-! ### C4: the human-indicator reduction on a concrete document pair -/

def c4text : String := "I I I I I I"

def smallEdit : Edit := { kind := "ins", wordCount := 1 }

/-- Six first-person pronouns, eleven one-word tracked insertions. -/
def c4docWith : DocFeatures :=
  { text := c4text, paragraphs := [c4text], trackChanges := List.replicate 11 smallEdit }

/-- The same text without the tracked edits. -/
def c4docWithout : DocFeatures := { text := c4text, paragraphs := [c4text] }

theorem sentencesOf_c4 : sentencesOf c4text = [c4text] := by decide

theorem count_words_c4 : count_words c4text = 6 := by decide

theorem dtype_c4 : detect_document_type c4text = "general" := by decide

theorem d4score_c4 : d4score [c4text] = 0 := by
  rw [d4score, show sentenceLens [c4text] = [6] from by decide]
  norm_num

theorem e3score_c4 : e3score [c4text] = 0 := by
  rw [e3score, show paraAvgLens [c4text] = [1] from by decide]
  norm_num

theorem f1score_c4 : f1score [c4text] = 0 := by
  rw [f1score, show paraLens [c4text] = [6] from by decide]
  norm_num

theorem mc_c4With : markerCounts c4docWith none = mcZero := by
  simp only [markerCounts, c4docWith, sentencesOf_c4, d4score_c4, e3score_c4,
    f1score_c4, eoeOf, mcZero]
  norm_num
  decide

theorem mc_c4Without : markerCounts c4docWithout none = mcZero := by
  simp only [markerCounts, c4docWithout, sentencesOf_c4, d4score_c4, e3score_c4,
    f1score_c4, eoeOf, mcZero]
  norm_num
  decide

theorem ms_c4With : markerResults c4docWith none = msZero := by
  simp only [markerResults, c4docWith, sentencesOf_c4, detect_category_a,
    detect_category_b, detect_category_c, detect_category_d, detect_category_e,
    detect_category_f, detect_category_g, detect_category_h, detect_category_i,
    detect_category_j, d4score_c4, e3score_c4, f1score_c4, eoeOf, msZero,
    List.cons_append, List.nil_append, List.cons.injEq, MarkerResult.mk.injEq,
    Rat.cast_eq_zero]
  norm_num
  decide

theorem ms_c4Without : markerResults c4docWithout none = msZero := by
  simp only [markerResults, c4docWithout, sentencesOf_c4, detect_category_a,
    detect_category_b, detect_category_c, detect_category_d, detect_category_e,
    detect_category_f, detect_category_g, detect_category_h, detect_category_i,
    detect_category_j, d4score_c4, e3score_c4, f1score_c4, eoeOf, msZero,
    List.cons_append, List.nil_append, List.cons.injEq, MarkerResult.mk.injEq,
    Rat.cast_eq_zero]
  norm_num
  decide

theorem anom_c4 : detect_anomalies c4text [c4text] [c4text] = 0 := by
  simp +decide [detect_anomalies]

theorem lex_c4 : calculate_lexical_diversity c4text
    = ⟨1667/10000, 833333/100, 0, 0, 0⟩ := by decide

theorem ngram_c4 : calculate_ngram_repetition c4text 3 = ⟨100, 4⟩ := by decide

theorem burst_c4 : calculate_burstiness [c4text] = ⟨0, 0, 0⟩ := rfl

theorem read_c4 : calculate_readability_scores c4text [c4text]
    = ⟨11614/100, 0, 12/5, 0, -297/20, -343/25⟩ := by
  simp only [calculate_readability_scores]
  rw [if_neg (by decide)]
  simp only [Readability.mk.injEq]
  refine ⟨by decide, by decide, by decide, ?_, by decide, by decide⟩
  rw [if_neg (by decide : ¬([c4text].length ≥ 30))]
  exact pyRoundR_zero2

theorem broundR_le (x : ℝ) : (broundR x : ℝ) ≤ x + 1 := by
  rw [broundR]
  have hf := Int.floor_le x
  split_ifs <;> push_cast <;> linarith

theorem pyRoundR_le (x : ℝ) (d : ℕ) : pyRoundR x d ≤ x + 1 / 10 ^ d := by
  rw [pyRoundR, div_le_iff (by positivity : (0:ℝ) < 10 ^ d)]
  have h := broundR_le (x * 10 ^ d)
  have e : (x + 1 / 10 ^ d) * 10 ^ d = x * 10 ^ d + 1 := by field_simp
  linarith

theorem entropy_term_le (p : ℚ) (h0 : (0:ℝ) < (p : ℝ)) (h4 : (4:ℝ)⁻¹ ≤ (p : ℝ)) :
    -((p : ℝ) * Real.logb 2 (p : ℝ)) ≤ 2 * (p : ℝ) := by
  have hlog : Real.logb 2 ((4:ℝ)⁻¹) ≤ Real.logb 2 (p : ℝ) :=
    Real.logb_le_logb_of_le (by norm_num) (by norm_num) h4
  have hfour : Real.logb 2 ((4:ℝ)⁻¹) = -2 := by
    rw [Real.logb_inv, show (4:ℝ) = 2 ^ (2:ℕ) by norm_num, Real.logb_pow,
        Real.logb_self_eq_one (by norm_num)]
    norm_num
  have : (-2 : ℝ) ≤ Real.logb 2 (p : ℝ) := hfour ▸ hlog
  nlinarith

theorem ent_c4_lt : calculate_entropy c4text < 4 := by
  rw [calculate_entropy, if_neg (by decide : ¬(c4text = ""))]
  refine lt_of_le_of_lt (pyRoundR_le _ 4) ?_
  rw [show (c4text.data.map Char.toLower).dedup = [' ', 'i'] from by decide]
  simp only [List.map_cons, List.map_nil, List.sum_cons, List.sum_nil]
  rw [show ((((c4text.data.map Char.toLower).filter (· = ' ')).length : ℚ)
        / (c4text.length : ℚ)) = 5/11 from by decide,
      show ((((c4text.data.map Char.toLower).filter (· = 'i')).length : ℚ)
        / (c4text.length : ℚ)) = 6/11 from by decide]
  have t1 := entropy_term_le (5/11) (by norm_num) (by norm_num)
  have t2 := entropy_term_le (6/11) (by norm_num) (by norm_num)
  push_cast at t1 t2 ⊢
  nlinarith

theorem c4With_text : c4docWith.text = c4text := rfl

theorem c4With_paras : c4docWith.paragraphs = [c4text] := rfl

theorem c4Without_text : c4docWithout.text = c4text := rfl

theorem c4Without_paras : c4docWithout.paragraphs = [c4text] := rfl

theorem base0_c4With : base0 c4docWith none = 0 := by
  have hmw : maxWeighted ≠ 0 := by decide
  rw [base0, if_pos hmw, ms_c4With, weighted_msZero]
  norm_num

theorem base0_c4Without : base0 c4docWithout none = 0 := by
  have hmw : maxWeighted ≠ 0 := by decide
  rw [base0, if_pos hmw, ms_c4Without, weighted_msZero]
  norm_num

theorem baseCorrAnom_c4With : baseCorrAnom c4docWith none = 0 := by
  rw [baseCorrAnom]
  simp only [c4With_text, c4With_paras, sentencesOf_c4]
  rw [show baseComposite c4docWith none = 0 from by
        rw [baseComposite, base0_c4With, mc_c4With, compositeBonus_mcZero]; norm_num,
      mc_c4With, corr_mcZero, anom_c4]
  norm_num

theorem baseCorrAnom_c4Without : baseCorrAnom c4docWithout none = 0 := by
  rw [baseCorrAnom]
  simp only [c4Without_text, c4Without_paras, sentencesOf_c4]
  rw [show baseComposite c4docWithout none = 0 from by
        rw [baseComposite, base0_c4Without, mc_c4Without, compositeBonus_mcZero]; norm_num,
      mc_c4Without, corr_mcZero, anom_c4]
  norm_num

theorem pstdev_read_c4 : ¬(pstdevR [0, 12/5, -297/20] < 2) := by
  intro hc
  have h := (pstdevR_lt_iff [0, 12/5, -297/20] 2 (by norm_num)).mp
    (by exact_mod_cast hc)
  exact absurd h (by decide)

theorem baseStats_c4With : baseStats c4docWith none = 69 := by
  rw [baseStats]
  simp only [c4With_text, sentencesOf_c4]
  rw [baseCorrAnom_c4With]
  simp only [lex_c4, read_c4, ngram_c4, burst_c4]
  rw [if_pos ent_c4_lt,
      if_neg (show ¬(3 ≤ ([0, 12/5, -297/20] : List ℚ).length ∧
        pstdevR [0, 12/5, -297/20] < 2) from fun hc => pstdev_read_c4 hc.2)]
  norm_num

theorem baseStats_c4Without : baseStats c4docWithout none = 69 := by
  rw [baseStats]
  simp only [c4Without_text, sentencesOf_c4]
  rw [baseCorrAnom_c4Without]
  simp only [lex_c4, read_c4, ngram_c4, burst_c4]
  rw [if_pos ent_c4_lt,
      if_neg (show ¬(3 ≤ ([0, 12/5, -297/20] : List ℚ).length ∧
        pstdevR [0, 12/5, -297/20] < 2) from fun hc => pstdev_read_c4 hc.2)]
  norm_num

theorem hums_c4With : detect_human_indicators c4text [c4text] 6 c4docWith
    = [⟨"TYPO_PATTERN", 15⟩, ⟨"PERSONAL_VOICE", 20⟩] := by
  rw [detect_human_indicators]
  rw [if_pos (show c4docWith.trackChanges ≠ [] ∧
        10 ≤ (c4docWith.trackChanges.filter
          (fun e => 0 < e.wordCount && e.wordCount ≤ 2)).length from by decide),
      if_neg (show ¬(2 ≤ (sentenceLens [c4text]).length ∧
        (12 : ℝ) < pstdevR (sentenceLens [c4text])) from
        fun hc => absurd hc.1 (by decide)),
      if_pos (show 5 ≤ personalCount c4text from by decide),
      if_neg (show ¬((8 : ℚ) / 100 < detailQ c4text 6) from by decide),
      if_neg (show ¬((6:ℕ) ≠ 0 ∧ (2 : ℚ) / 100 < (colloqCount c4text : ℚ) / ((6:ℕ) : ℚ)) from
        fun hc => absurd hc.2 (by decide))]
  rfl

theorem hums_c4Without : detect_human_indicators c4text [c4text] 6 c4docWithout
    = [⟨"PERSONAL_VOICE", 20⟩] := by
  rw [detect_human_indicators]
  rw [if_neg (show ¬(c4docWithout.trackChanges ≠ [] ∧
        10 ≤ (c4docWithout.trackChanges.filter
          (fun e => 0 < e.wordCount && e.wordCount ≤ 2)).length) from
        fun hc => absurd hc.1 (by decide)),
      if_neg (show ¬(2 ≤ (sentenceLens [c4text]).length ∧
        (12 : ℝ) < pstdevR (sentenceLens [c4text])) from
        fun hc => absurd hc.1 (by decide)),
      if_pos (show 5 ≤ personalCount c4text from by decide),
      if_neg (show ¬((8 : ℚ) / 100 < detailQ c4text 6) from by decide),
      if_neg (show ¬((6:ℕ) ≠ 0 ∧ (2 : ℚ) / 100 < (colloqCount c4text : ℚ) / ((6:ℕ) : ℚ)) from
        fun hc => absurd hc.2 (by decide))]
  rfl

theorem baseHuman_c4With : baseHuman c4docWith none = 34 := by
  rw [baseHuman]
  simp only [c4With_text, sentencesOf_c4, count_words_c4]
  rw [baseStats_c4With, human_reduction, hums_c4With]
  norm_num

theorem baseHuman_c4Without : baseHuman c4docWithout none = 49 := by
  rw [baseHuman]
  simp only [c4Without_text, sentencesOf_c4, count_words_c4]
  rw [baseStats_c4Without, human_reduction, hums_c4Without]
  norm_num

theorem markersFound_c4With : markersFoundOf c4docWith none = 0 := by
  rw [markersFoundOf, ms_c4With]
  norm_num [msZero, cappedScore, List.filter]

theorem markersFound_c4Without : markersFoundOf c4docWithout none = 0 := by
  rw [markersFoundOf, ms_c4Without]
  norm_num [msZero, cappedScore, List.filter]

theorem confAdjusted_c4With : confAdjusted c4docWith none = ((119/5 : ℚ) : ℝ) := by
  rw [confAdjusted]
  simp only [c4With_text, count_words_c4]
  rw [markersFound_c4With, baseHuman_c4With]
  simp only [adjust_for_confidence]
  rw [if_pos (show (6:ℕ) < 500 by norm_num),
      if_neg (show ¬((0:ℕ) < 3 ∧ (50:ℝ) < 34) from fun hc => absurd hc.2 (by norm_num))]
  refine pyRoundR_eval 1 ?_ (show pyRound (119/5) 1 = 119/5 by decide)
  push_cast
  norm_num

theorem confAdjusted_c4Without : confAdjusted c4docWithout none = ((343/10 : ℚ) : ℝ) := by
  rw [confAdjusted]
  simp only [c4Without_text, count_words_c4]
  rw [markersFound_c4Without, baseHuman_c4Without]
  simp only [adjust_for_confidence]
  rw [if_pos (show (6:ℕ) < 500 by norm_num),
      if_neg (show ¬((0:ℕ) < 3 ∧ (50:ℝ) < 49) from fun hc => absurd hc.2 (by norm_num))]
  refine pyRoundR_eval 1 ?_ (show pyRound (343/10) 1 = 343/10 by decide)
  push_cast
  norm_num

theorem bayes_c4With_adj : (bayesOf c4docWith none).adjScore = ((131/10 : ℚ) : ℝ) := by
  rw [bayesOf]
  simp only [c4With_text, count_words_c4, dtype_c4]
  rw [mc_c4With, confAdjusted_c4With,
      bayes_general_adj (119/5) mcZero 6 (by decide)]
  rw [show min (100:ℚ) ((119:ℚ)/5 * (60/109)) = 1428/109 by
        rw [show ((119:ℚ)/5 * (60/109)) = 1428/109 by norm_num]
        exact min_eq_right (by norm_num)]
  rw [show pyRound ((1428:ℚ)/109) 2 = 131/10 by decide]

theorem bayes_c4Without_adj : (bayesOf c4docWithout none).adjScore = ((472/25 : ℚ) : ℝ) := by
  rw [bayesOf]
  simp only [c4Without_text, count_words_c4, dtype_c4]
  rw [mc_c4Without, confAdjusted_c4Without,
      bayes_general_adj (343/10) mcZero 6 (by decide)]
  rw [show min (100:ℚ) ((343:ℚ)/10 * (60/109)) = 2058/109 by
        rw [show ((343:ℚ)/10 * (60/109)) = 2058/109 by norm_num]
        exact min_eq_right (by norm_num)]
  rw [show pyRound ((2058:ℚ)/109) 2 = 472/25 by decide]

theorem ctx_c4With : ctxScore c4docWith none = ((81/10 : ℚ) : ℝ) := by
  rw [ctxScore]
  simp only [c4With_text, count_words_c4, dtype_c4]
  rw [mc_c4With, bayes_c4With_adj,
      ctx_general (131/10) 6 mcZero (by norm_num) (by norm_num) (by norm_num)]
  rw [show pyRound ((131:ℚ)/10 - 5) 2 = 81/10 by decide]

theorem ctx_c4Without : ctxScore c4docWithout none = ((347/25 : ℚ) : ℝ) := by
  rw [ctxScore]
  simp only [c4Without_text, count_words_c4, dtype_c4]
  rw [mc_c4Without, bayes_c4Without_adj,
      ctx_general (472/25) 6 mcZero (by norm_num) (by norm_num) (by norm_num)]
  rw [show pyRound ((472:ℚ)/25 - 5) 2 = 347/25 by decide]

theorem blended_c4With : blendedScore c4docWith none = ((819/50 : ℚ) : ℝ) := by
  rw [blendedScore, confAdjusted_c4With, bayes_c4With_adj, ctx_c4With]
  push_cast
  norm_num

theorem blended_c4Without : blendedScore c4docWithout none = ((3006/125 : ℚ) : ℝ) := by
  rw [blendedScore, confAdjusted_c4Without, bayes_c4Without_adj, ctx_c4Without]
  push_cast
  norm_num

theorem score_c4With : (analyze_document c4docWith none envA).score = ((82/5 : ℚ) : ℝ) := by
  simp only [analyze_document]
  rw [blended_c4With]
  exact pyRoundR_eval 1 rfl (by decide)

theorem score_c4Without :
    (analyze_document c4docWithout none envA).score = ((24 : ℚ) : ℝ) := by
  simp only [analyze_document]
  rw [blended_c4Without]
  exact pyRoundR_eval 1 rfl (by decide)

theorem humsOut_c4With : (analyze_document c4docWith none envA).humanIndicators
    = [⟨"TYPO_PATTERN", 15⟩, ⟨"PERSONAL_VOICE", 20⟩] := by
  simp only [analyze_document]
  rw [c4With_text, sentencesOf_c4, count_words_c4]
  exact hums_c4With

theorem hred_c4With :
    (analyze_document c4docWith none envA).breakdown.humanReduction = 35 := by
  simp only [analyze_document]
  rw [c4With_text, sentencesOf_c4, count_words_c4, human_reduction, hums_c4With]
  rfl

theorem hred_c4Without :
    (analyze_document c4docWithout none envA).breakdown.humanReduction = 20 := by
  simp only [analyze_document]
  rw [c4Without_text, sentencesOf_c4, count_words_c4, human_reduction, hums_c4Without]
  rfl

/-- C4: counterexample.  `c4docWith` (six first-person pronouns, eleven
one-word tracked insertions) shows both TYPO_PATTERN and PERSONAL_VOICE,
but its final score is 16.4 against 24.0 for the same text without the
edits: a gap of 7.6 points, not the claimed ≥ 35.  The 35-point reduction
is applied to the pre-blend base score, and the confidence factor and
blend dilute it. -/
theorem C4_counterexample :
    (analyze_document c4docWith none envA).humanIndicators
        = [⟨"TYPO_PATTERN", 15⟩, ⟨"PERSONAL_VOICE", 20⟩] ∧
    (analyze_document c4docWith none envA).score = ((82/5 : ℚ) : ℝ) ∧
    (analyze_document c4docWithout none envA).score = ((24 : ℚ) : ℝ) ∧
    ¬((35 : ℝ) ≤ (analyze_document c4docWithout none envA).score
        - (analyze_document c4docWith none envA).score) := by
  refine ⟨humsOut_c4With, score_c4With, score_c4Without, ?_⟩
  rw [score_c4With, score_c4Without]
  intro hc
  rw [show ((24:ℚ):ℝ) - ((82/5:ℚ):ℝ) = (((38/5 : ℚ)) : ℝ) by push_cast; norm_num] at hc
  have : (35:ℚ) ≤ 38/5 := by exact_mod_cast hc
  norm_num at this

/-- C4 (amended): the indicator reductions are summed and subtracted from
the statistical BASE score (floored at 0) before the confidence, Bayesian
and contextual stages — not from the blended score.  On the six-pronoun
document the with-edits run shows TYPO_PATTERN (−15) and PERSONAL_VOICE
(−20), a recorded reduction of 35 against 20 without the edits, and final
scores 16.4 against 24.0: a gap of 7.6 points. -/
theorem C4_human_reduction_amended (doc : DocFeatures) (original : Option DocFeatures) :
    baseHuman doc original = max 0 (baseStats doc original
      - (human_reduction doc.text (sentencesOf doc.text) (count_words doc.text) doc : ℝ)) ∧
    human_reduction doc.text (sentencesOf doc.text) (count_words doc.text) doc
      = ((detect_human_indicators doc.text (sentencesOf doc.text) (count_words doc.text)
          doc).map (fun h => h.reduction)).sum ∧
    (analyze_document c4docWith none envA).breakdown.humanReduction = 35 ∧
    (analyze_document c4docWithout none envA).breakdown.humanReduction = 20 ∧
    (analyze_document c4docWithout none envA).score
        - (analyze_document c4docWith none envA).score = ((38/5 : ℚ) : ℝ) := by
  refine ⟨rfl, rfl, hred_c4With, hred_c4Without, ?_⟩
  rw [score_c4With, score_c4Without]
  push_cast
  norm_num

/-! ### C1: the composite bonus has no 50-point aggregate cap -/

def c1p1 : String :=
  "Furthermore, research indicates standard procedures were followed today."

def c1p2 : String :=
  "Moreover, standard procedures were followed with robust cohort."

def c1p3 : String :=
  "Additionally, this suggests that delve comprehensive plans matter."

def c1p4 : String :=
  "Consequently, this demonstrates that empirical review helps teams."

def c1text : String :=
  c1p1 ++ "\n\n" ++ c1p2 ++ "\n\n" ++ c1p3 ++ "\n\n" ++ c1p4 ++ zwsp

/-- A document designed to trigger SMOKING_GUN_2, SUSPICIOUS_COMBO_1 and
SUSPICIOUS_COMBO_2 at once (40 + 25 + 30 = 95 bonus points). -/
def c1doc : DocFeatures :=
  { text := c1text, paragraphs := [c1p1, c1p2, c1p3, c1p4],
    fontInfo := { clusters := 1 },
    styleInfo := { headingStyles := ["Heading1", "Heading2"] } }

def c1s1 : String :=
  "Furthermore, research indicates standard procedures were followed today"

def c1s2 : String := "Moreover, standard procedures were followed with robust cohort"

def c1s3 : String := "Additionally, this suggests that delve comprehensive plans matter"

def c1s4 : String := c1p4 ++ zwsp

set_option maxRecDepth 16000 in
theorem sentencesOf_c1 : sentencesOf c1text = [c1s1, c1s2, c1s3, c1s4] := by decide

theorem d4score_c1 : d4score [c1s1, c1s2, c1s3, c1s4] = 50 := by
  rw [d4score, show sentenceLens [c1s1, c1s2, c1s3, c1s4] = [8, 8, 8, 8] from by decide]
  rw [if_pos (show 2 ≤ ([8, 8, 8, 8] : List ℚ).length by norm_num)]
  rw [show pstdevR [8, 8, 8, 8] = 0 from by
        rw [pstdevR, show pvarQ [8, 8, 8, 8] = 0 from by decide]; simp]
  norm_num

theorem e3score_c1 : e3score [c1p1, c1p2, c1p3, c1p4] = 0 := by
  rw [e3score, show paraAvgLens [c1p1, c1p2, c1p3, c1p4]
        = [63/8, 27/4, 57/8, 57/8] from by decide]
  rw [if_pos (show 2 ≤ ([63/8, 27/4, 57/8, 57/8] : List ℚ).length by norm_num)]
  rw [if_neg (show ¬(pstdevR [63/8, 27/4, 57/8, 57/8] < (0.2:ℝ)) from by
        intro hc
        rw [show (0.2:ℝ) = ((1/5 : ℚ) : ℝ) by norm_num] at hc
        exact absurd ((pstdevR_lt_iff _ _ (by norm_num)).mp hc) (by decide)),
      if_neg (show ¬(pstdevR [63/8, 27/4, 57/8, 57/8] < (0.3:ℝ)) from by
        intro hc
        rw [show (0.3:ℝ) = ((3/10 : ℚ) : ℝ) by norm_num] at hc
        exact absurd ((pstdevR_lt_iff _ _ (by norm_num)).mp hc) (by decide))]

theorem f1score_c1 : f1score [c1p1, c1p2, c1p3, c1p4] = 25 := by
  simp only [f1score]
  rw [show paraLens [c1p1, c1p2, c1p3, c1p4] = [8, 8, 8, 8] from by decide]
  rw [if_pos (show 2 ≤ ([8, 8, 8, 8] : List ℚ).length by norm_num)]
  rw [show qMean [8, 8, 8, 8] = 8 from by decide]
  rw [if_pos (show (8:ℚ) ≠ 0 by norm_num)]
  rw [show pstdevR [8, 8, 8, 8] = 0 from by
        rw [pstdevR, show pvarQ [8, 8, 8, 8] = 0 from by decide]; simp]
  norm_num

/-- The marker counts of `c1doc`. -/
def mcC1 : MarkerCounts :=
  [("A1_em_dash", 0), ("A2_colon_semicolon", 0), ("A3_unicode_subscript", 0),
   ("A4_mixed_quotes", 0), ("B1_transitional", 4), ("B2_enumeration", 0),
   ("B3_spacing", 0), ("B4_line_breaks", 0), ("B5_repetitive", 0),
   ("C1_eoe", 0), ("C2_large_chunks", 0), ("C3_edit_time_ratio", 0),
   ("C4_clustered", 0), ("D1_hedging_overuse", 2), ("D2_formal_transitions", 0),
   ("D3_passive_density", 25/4), ("D4_sentence_uniformity", 1), ("E1_ai_words", 6),
   ("E2_contraction_avoidance", 0), ("E3_vocab_uniformity", 0),
   ("F1_para_uniformity", 1), ("F2_parallel_structures", 0),
   ("F3_balanced_argument", 0), ("G1_lack_specifics", 1/5),
   ("G2_circular_definitions", 0), ("G3_generic_statements", 0),
   ("H1_font_inconsistent", 1), ("H2_style_inconsistent", 1),
   ("H3_metadata_anomalies", 0), ("H5_clipboard_artifacts", 1),
   ("I1_citation_anomalies", 0), ("I2_generic_method", 2),
   ("I3_results_no_data", 0), ("J1_wholesale", 0), ("J2_edit_granularity", 0)]

set_option maxRecDepth 16000 in
theorem mc_c1doc : markerCounts c1doc none = mcC1 := by
  simp only [markerCounts, c1doc, sentencesOf_c1, d4score_c1, e3score_c1,
    f1score_c1, eoeOf, mcC1]
  norm_num
  decide

theorem check_mcC1 : check_composite_patterns mcC1
    = [⟨"SMOKING_GUN_2", 40, "HIGH"⟩, ⟨"SUSPICIOUS_COMBO_1", 25, "MODERATE"⟩,
       ⟨"SUSPICIOUS_COMBO_2", 30, "MODERATE"⟩] := by decide

/-- C1: counterexample.  On `c1doc` three composite patterns trigger
with bonuses 40, 25 and 30 and the full 95 points are added: the sum is
not capped at 50. -/
theorem C1_counterexample :
    check_composite_patterns (markerCounts c1doc none)
      = [⟨"SMOKING_GUN_2", 40, "HIGH"⟩, ⟨"SUSPICIOUS_COMBO_1", 25, "MODERATE"⟩,
         ⟨"SUSPICIOUS_COMBO_2", 30, "MODERATE"⟩] ∧
    composite_bonus (markerCounts c1doc none) = 95 ∧
    ¬(composite_bonus (markerCounts c1doc none) ≤ 50) := by
  refine ⟨by rw [mc_c1doc]; exact check_mcC1, ?_, ?_⟩
  · rw [mc_c1doc, composite_bonus, check_mcC1]
    decide
  · rw [mc_c1doc, composite_bonus, check_mcC1]
    decide

/-- C1 (amended): the composite bonus added to the base score is the
plain sum of the bonuses of all triggered patterns, with no aggregate
50-point cap — the only clamp is the later min(100, base + bonus); the
min(50, ·) cap belongs to the separate correlation bonus.  On `c1doc`
the recorded composite bonus is 95. -/
theorem C1_composite_bonus_amended (doc : DocFeatures) (original : Option DocFeatures)
    (mc : MarkerCounts) :
    composite_bonus mc = ((check_composite_patterns mc).map (fun h => h.bonus)).sum ∧
    baseComposite doc original = min 100 (base0 doc original
      + (composite_bonus (markerCounts doc original) : ℝ)) ∧
    correlation_bonus mc ≤ 50 ∧
    (analyze_document c1doc none envA).breakdown.compositeBonus = 95 := by
  refine ⟨rfl, rfl, min_le_left _ _, ?_⟩
  simp only [analyze_document]
  rw [mc_c1doc, composite_bonus, check_mcC1]
  decide

end Aware
